import Mathlib

/-!
Verification development for the SPE workspace provisioning service.

The Python source is shallowly embedded: event payloads (schemaless JSON
dicts) are modelled by the inductive `JVal`; each orchestration function of
`src/orchestration/main.py`, the Redis state manager of
`src/services/state_manager.py` and the consumer of `src/events/consumer.py`
is translated into an executable Lean function over explicit state, with an
effect trace recording driver calls, bus publications and state writes.
-/

/-- A JSON-like dynamic value, modelling the Python values that flow through
event payloads and plan dictionaries.  `jNull` models Python `None`. -/
inductive JVal where
  | jNull
  | jBool (b : Bool)
  | jInt (n : Int)
  | jStr (s : String)
  | jArr (xs : List JVal)
  | jObj (kvs : List (String × JVal))
  deriving Repr

/-- Decidable structural equality for `JVal` (the derive handler does not
support this nested inductive). -/
def JVal.decEq : (a b : JVal) → Decidable (a = b)
  | .jNull, .jNull => .isTrue rfl
  | .jBool a, .jBool b =>
    if h : a = b then .isTrue (by rw [h]) else .isFalse (fun hc => h (by cases hc; rfl))
  | .jInt a, .jInt b =>
    if h : a = b then .isTrue (by rw [h]) else .isFalse (fun hc => h (by cases hc; rfl))
  | .jStr a, .jStr b =>
    if h : a = b then .isTrue (by rw [h]) else .isFalse (fun hc => h (by cases hc; rfl))
  | .jArr xs, .jArr ys =>
    match decEqList xs ys with
    | .isTrue h => .isTrue (by rw [h])
    | .isFalse h => .isFalse (fun hc => h (by cases hc; rfl))
  | .jObj xs, .jObj ys =>
    match decEqObj xs ys with
    | .isTrue h => .isTrue (by rw [h])
    | .isFalse h => .isFalse (fun hc => h (by cases hc; rfl))
  | .jNull, .jBool _ => .isFalse (by intro h; cases h)
  | .jNull, .jInt _ => .isFalse (by intro h; cases h)
  | .jNull, .jStr _ => .isFalse (by intro h; cases h)
  | .jNull, .jArr _ => .isFalse (by intro h; cases h)
  | .jNull, .jObj _ => .isFalse (by intro h; cases h)
  | .jBool _, .jNull => .isFalse (by intro h; cases h)
  | .jBool _, .jInt _ => .isFalse (by intro h; cases h)
  | .jBool _, .jStr _ => .isFalse (by intro h; cases h)
  | .jBool _, .jArr _ => .isFalse (by intro h; cases h)
  | .jBool _, .jObj _ => .isFalse (by intro h; cases h)
  | .jInt _, .jNull => .isFalse (by intro h; cases h)
  | .jInt _, .jBool _ => .isFalse (by intro h; cases h)
  | .jInt _, .jStr _ => .isFalse (by intro h; cases h)
  | .jInt _, .jArr _ => .isFalse (by intro h; cases h)
  | .jInt _, .jObj _ => .isFalse (by intro h; cases h)
  | .jStr _, .jNull => .isFalse (by intro h; cases h)
  | .jStr _, .jBool _ => .isFalse (by intro h; cases h)
  | .jStr _, .jInt _ => .isFalse (by intro h; cases h)
  | .jStr _, .jArr _ => .isFalse (by intro h; cases h)
  | .jStr _, .jObj _ => .isFalse (by intro h; cases h)
  | .jArr _, .jNull => .isFalse (by intro h; cases h)
  | .jArr _, .jBool _ => .isFalse (by intro h; cases h)
  | .jArr _, .jInt _ => .isFalse (by intro h; cases h)
  | .jArr _, .jStr _ => .isFalse (by intro h; cases h)
  | .jArr _, .jObj _ => .isFalse (by intro h; cases h)
  | .jObj _, .jNull => .isFalse (by intro h; cases h)
  | .jObj _, .jBool _ => .isFalse (by intro h; cases h)
  | .jObj _, .jInt _ => .isFalse (by intro h; cases h)
  | .jObj _, .jStr _ => .isFalse (by intro h; cases h)
  | .jObj _, .jArr _ => .isFalse (by intro h; cases h)
where
  decEqList : (xs ys : List JVal) → Decidable (xs = ys)
    | [], [] => .isTrue rfl
    | x :: xs, y :: ys =>
      match JVal.decEq x y with
      | .isFalse h => .isFalse (fun hc => h (by cases hc; rfl))
      | .isTrue h =>
        match decEqList xs ys with
        | .isTrue h2 => .isTrue (by rw [h, h2])
        | .isFalse h2 => .isFalse (fun hc => h2 (by cases hc; rfl))
    | [], _ :: _ => .isFalse (by intro h; cases h)
    | _ :: _, [] => .isFalse (by intro h; cases h)
  decEqObj : (xs ys : List (String × JVal)) → Decidable (xs = ys)
    | [], [] => .isTrue rfl
    | (k, v) :: xs, (l, w) :: ys =>
      match String.decEq k l with
      | .isFalse h => .isFalse (fun hc => h (by cases hc; rfl))
      | .isTrue h =>
        match JVal.decEq v w with
        | .isFalse h2 => .isFalse (fun hc => h2 (by cases hc; rfl))
        | .isTrue h2 =>
          match decEqObj xs ys with
          | .isTrue h3 => .isTrue (by rw [h, h2, h3])
          | .isFalse h3 => .isFalse (fun hc => h3 (by cases hc; rfl))
    | [], _ :: _ => .isFalse (by intro h; cases h)
    | _ :: _, [] => .isFalse (by intro h; cases h)

instance : DecidableEq JVal := JVal.decEq

/-- `payload.get(key)` on a Python dict: `some v` iff the key is present
(`v` may be `jNull` when the stored value is `None`).  In the source every
`.get` is invoked on a dict; on non-dict values Python would raise - the
model totalises those unreachable cases to `none`. -/
def jGet (j : JVal) (k : String) : Option JVal :=
  match j with
  | .jObj kvs => (kvs.find? (fun kv => kv.1 == k)).map (·.2)
  | _ => none

/-- `payload.get(key, default)`: the stored value when the key is present
(even if `None`), else the default. -/
def jGetD (j : JVal) (k : String) (d : JVal) : JVal :=
  (jGet j k).getD d

/-- Python truthiness of a value (`if x:`). -/
def jTruthy : JVal → Bool
  | .jNull => false
  | .jBool b => b
  | .jInt n => n != 0
  | .jStr s => !(s == "")
  | .jArr xs => !xs.isEmpty
  | .jObj kvs => !kvs.isEmpty

/-- Python `a or b`: `a` when truthy, else `b`. -/
def pyOr (a b : JVal) : JVal := if jTruthy a then a else b

/-- Python `str(x)` as used on payload scalars (f-strings, `str(raw_uid)`).
Containers are rendered approximately; no claim evaluates them. -/
def pyStr : JVal → String
  | .jNull => "None"
  | .jBool b => if b then "True" else "False"
  | .jInt n => toString n
  | .jStr s => s
  | .jArr _ => "<list>"
  | .jObj _ => "<dict>"

/-- Is the value a JSON/Python string? -/
def JVal.isStr : JVal → Bool
  | .jStr _ => true
  | _ => false

/-- Is the value Python `None`? (`x is None`). -/
def JVal.isNull : JVal → Bool
  | .jNull => true
  | _ => false

/-- Is the value a dict? -/
def JVal.isObj : JVal → Bool
  | .jObj _ => true
  | _ => false

/-- The entries of a dict value; `[]` for anything else (the source only
reaches this on dicts). -/
def jEntries : JVal → List (String × JVal)
  | .jObj kvs => kvs
  | _ => []

/-- Python `{**a, **b}`: keys of `a` in order with values overridden by `b`,
followed by the keys of `b` that are not in `a`, in order. -/
def dictMerge (a b : List (String × JVal)) : List (String × JVal) :=
  (a.map (fun kv => (kv.1, ((b.find? (fun kv2 => kv2.1 == kv.1)).map (·.2)).getD kv.2)))
    ++ b.filter (fun kv2 => (a.find? (fun kv => kv.1 == kv2.1)).isNone)

/-- `WorkspaceType` from `src/orchestration/main.py`: the six logical
workspace stages, in enumeration order. -/
inductive WorkspaceType where
  | INGRESS | PREPROCESS | REVIEW | SETUP | SETUP_REVIEW | ANALYSIS
  deriving DecidableEq, Repr

/-- The `str` value of each stage (the Python enum member value). -/
def WorkspaceType.value : WorkspaceType → String
  | .INGRESS => "ingress"
  | .PREPROCESS => "preprocess"
  | .REVIEW => "review"
  | .SETUP => "setup"
  | .SETUP_REVIEW => "setup-review"
  | .ANALYSIS => "analysis"

/-- `workspace_type.value.upper()` as computed by Python `str.upper`. -/
def WorkspaceType.upperValue : WorkspaceType → String
  | .INGRESS => "INGRESS"
  | .PREPROCESS => "PREPROCESS"
  | .REVIEW => "REVIEW"
  | .SETUP => "SETUP"
  | .SETUP_REVIEW => "SETUP-REVIEW"
  | .ANALYSIS => "ANALYSIS"

/-- The list `for workspace_type in WorkspaceType` iterates, in declaration
order. -/
def workspaceTypeList : List WorkspaceType :=
  [.INGRESS, .PREPROCESS, .REVIEW, .SETUP, .SETUP_REVIEW, .ANALYSIS]

/-- `NetworkPolicyProfile` from `src/orchestration/pulumi_programs/network.py`. -/
inductive NetworkPolicyProfile where
  | INGRESS | PREPROCESS | REVIEW | SETUP | SETUP_REVIEW | ANALYSIS | STOPPED
  deriving DecidableEq, Repr

/-- The `str` value of each profile. -/
def NetworkPolicyProfile.value : NetworkPolicyProfile → String
  | .INGRESS => "ingress"
  | .PREPROCESS => "preprocess"
  | .REVIEW => "review"
  | .SETUP => "setup"
  | .SETUP_REVIEW => "setup-review"
  | .ANALYSIS => "analysis"
  | .STOPPED => "stopped"

/-- `NetworkPolicyProfile(value)`: the enum constructor call in
`_plan_from_dict`; `none` models the `ValueError` on an unknown value. -/
def parseProfile : JVal → Option NetworkPolicyProfile
  | .jStr "ingress" => some .INGRESS
  | .jStr "preprocess" => some .PREPROCESS
  | .jStr "review" => some .REVIEW
  | .jStr "setup" => some .SETUP
  | .jStr "setup-review" => some .SETUP_REVIEW
  | .jStr "analysis" => some .ANALYSIS
  | .jStr "stopped" => some .STOPPED
  | _ => none

/-- `PermitStatus` from `src/events/models.py`: the nine lifecycle statuses
received from the bus. -/
inductive PermitStatus where
  | AWAITING_INGRESS
  | DATA_PREPARATION_PENDING
  | DATA_PREPARATION_REVIEW_PENDING
  | DATA_PREPARATION_REWORK
  | WORKSPACE_SETUP_PENDING
  | WORKSPACE_SETUP_REVIEW_PENDING
  | WORKSPACE_SETUP_REWORK
  | ANALYSIS_ACTIVE
  | ARCHIVED
  deriving DecidableEq, Repr

/-- The `str` value of each permit status. -/
def PermitStatus.value : PermitStatus → String
  | .AWAITING_INGRESS => "AWAITING_INGRESS"
  | .DATA_PREPARATION_PENDING => "DATA_PREPARATION_PENDING"
  | .DATA_PREPARATION_REVIEW_PENDING => "DATA_PREPARATION_REVIEW_PENDING"
  | .DATA_PREPARATION_REWORK => "DATA_PREPARATION_REWORK"
  | .WORKSPACE_SETUP_PENDING => "WORKSPACE_SETUP_PENDING"
  | .WORKSPACE_SETUP_REVIEW_PENDING => "WORKSPACE_SETUP_REVIEW_PENDING"
  | .WORKSPACE_SETUP_REWORK => "WORKSPACE_SETUP_REWORK"
  | .ANALYSIS_ACTIVE => "ANALYSIS_ACTIVE"
  | .ARCHIVED => "ARCHIVED"

/-- `PermitStatus(status)` in the consumer: `none` models the `ValueError`
on an unknown status value (caught and logged there). -/
def parsePermitStatus : JVal → Option PermitStatus
  | .jStr "AWAITING_INGRESS" => some .AWAITING_INGRESS
  | .jStr "DATA_PREPARATION_PENDING" => some .DATA_PREPARATION_PENDING
  | .jStr "DATA_PREPARATION_REVIEW_PENDING" => some .DATA_PREPARATION_REVIEW_PENDING
  | .jStr "DATA_PREPARATION_REWORK" => some .DATA_PREPARATION_REWORK
  | .jStr "WORKSPACE_SETUP_PENDING" => some .WORKSPACE_SETUP_PENDING
  | .jStr "WORKSPACE_SETUP_REVIEW_PENDING" => some .WORKSPACE_SETUP_REVIEW_PENDING
  | .jStr "WORKSPACE_SETUP_REWORK" => some .WORKSPACE_SETUP_REWORK
  | .jStr "ANALYSIS_ACTIVE" => some .ANALYSIS_ACTIVE
  | .jStr "ARCHIVED" => some .ARCHIVED
  | _ => none

/-- `EventType` from `src/events/models.py`. -/
inductive EventType where
  | PERMIT_STATUS_UPDATED
  | PERMIT_INGRESS_INITIATED
  | WORKSPACE_STOP_REQUESTED
  | WORKSPACE_START_REQUESTED
  | PERMIT_DELETED
  deriving DecidableEq, Repr

/-- `EventType(event_type)` in the consumer: `none` models the raised
`ValueError` on an unsupported event type. -/
def parseEventType : JVal → Option EventType
  | .jStr "permit.status.updated" => some .PERMIT_STATUS_UPDATED
  | .jStr "permit.ingress.initiated" => some .PERMIT_INGRESS_INITIATED
  | .jStr "permit.workspace.stop_requested" => some .WORKSPACE_STOP_REQUESTED
  | .jStr "permit.workspace.start_requested" => some .WORKSPACE_START_REQUESTED
  | .jStr "permit.deleted" => some .PERMIT_DELETED
  | _ => none

/-- Modelled from the spec: `WorkspaceLifecycleStatus` is imported by
`src/orchestration/main.py` from `src/services/state_manager.py` but its
definition is absent from the sources; the spec lists the internal statuses
`PROVISIONING_FAILED` and `DESTROY_FAILED` written to the store on driver
failures. -/
inductive WorkspaceLifecycleStatus where
  | PROVISIONING_FAILED
  | DESTROY_FAILED
  deriving DecidableEq, Repr

/-- The `str` value of each internal lifecycle status. -/
def WorkspaceLifecycleStatus.value : WorkspaceLifecycleStatus → String
  | .PROVISIONING_FAILED => "PROVISIONING_FAILED"
  | .DESTROY_FAILED => "DESTROY_FAILED"

/-- A raised Python exception, as observed by the failure paths:
`str(error)` and `error.__class__.__name__`. -/
structure PyErr where
  msg : String
  etype : String
  deriving DecidableEq, Repr

/-- `CIDRRule` from `src/orchestration/pulumi_programs/network.py`.  The
field values come straight from payloads, hence `JVal`. -/
structure CIDRRule where
  cidr : JVal
  ports : JVal
  deriving Repr, DecidableEq

/-- `VolumeSpec` from `src/orchestration/pulumi_programs/storage.py`.  All
fields are payload pass-through values. -/
structure VolumeSpec where
  name : JVal
  storage_class : JVal
  size : JVal
  access_modes : JVal
  read_only : JVal
  mount_path : JVal
  deriving Repr, DecidableEq

/-- `WorkspaceUser` from `src/orchestration/pulumi_programs/workspace.py`.
`username` is stored exactly as resolved (no `str()` conversion in the
source); `uid`/`gid` pass through `str()` in `_resolve_workspace_user` but
are stored untyped again by `_plan_from_dict`, hence `JVal`. -/
structure WorkspaceUser where
  username : JVal
  uid : JVal
  gid : JVal
  deriving Repr, DecidableEq

/-- `WorkspaceContainer` from the same module. -/
structure WorkspaceContainer where
  image : JVal
  resources : JVal
  env : List (String × JVal)
  command : JVal
  args : JVal
  ports : JVal
  deriving Repr, DecidableEq

/-- `WorkspaceSpec` from the same module. -/
structure WorkspaceSpec where
  name : JVal
  nspace : JVal  -- `namespace` in the source (Lean keyword)
  container : WorkspaceContainer
  user : WorkspaceUser
  volumes : List VolumeSpec
  service_account_name : JVal
  replicas : JVal
  annotations : JVal
  deriving Repr, DecidableEq

/-- `NetworkConfig` from `src/orchestration/main.py`. -/
structure NetworkConfig where
  profile : NetworkPolicyProfile
  ingress : List CIDRRule := []
  egress : List CIDRRule := []
  proxy_selector : JVal := .jNull
  deriving Repr, DecidableEq

/-- `WorkspacePlan` from `src/orchestration/main.py`. -/
structure WorkspacePlan where
  stack_name : JVal
  workspace_spec : WorkspaceSpec
  network : NetworkConfig
  connection_secret : JVal := .jNull
  connection_info : JVal := .jNull
  exports : List (String × JVal) := []
  refresh : Bool := true
  deriving Repr, DecidableEq

/-- `PermitEvent` from `src/events/models.py`. -/
structure PermitEvent where
  type : EventType
  permit_id : String
  status : Option PermitStatus := none
  payload : JVal := .jNull
  message_id : JVal := .jNull
  deriving Repr, DecidableEq

/-- `PulumiConfig` from `src/config.py` (the fields the orchestrator reads).
The `stack_prefix` field is named `stackPfx` here. -/
structure PulumiConfig where
  project_name : String
  stackPfx : String := "permit"
  organization : Option String := none
  work_dir : Option String := none
  refresh_before_update : Bool := true
  deriving Repr

/-- `AppConfig` (the fields the orchestrator reads). -/
structure AppConfig where
  pulumi : PulumiConfig
  disable_pulumi : Bool := false
  deriving Repr

/-- `VolumeTemplate` from `src/orchestration/main.py`. -/
structure VolumeTemplate where
  name : String
  mount_path : String
  read_only : Bool
  access_modes : List String
  default_size : String
  size_key : Option String := none
  storage_class : String := "spe-ceph-rbd"
  storage_class_key : Option String := none
  deriving Repr

/-- `VolumeTemplate.build`. -/
def VolumeTemplate.buildVol (t : VolumeTemplate) (payload : JVal) : VolumeSpec :=
  let size : JVal :=
    match t.size_key with
    | some k => jGetD payload k (.jStr t.default_size)
    | none => .jStr t.default_size
  let storage_class : JVal :=
    match t.storage_class_key with
    | some k => jGetD payload k (.jStr t.storage_class)
    | none => .jStr t.storage_class
  { name := .jStr t.name
    storage_class := storage_class
    size := size
    access_modes := .jArr (t.access_modes.map .jStr)
    read_only := .jBool t.read_only
    mount_path := .jStr t.mount_path }

/-- `WorkspaceConfigEntry` from `src/orchestration/main.py`. -/
structure WorkspaceConfigEntry where
  image : String
  network_profile : NetworkPolicyProfile
  default_env : List (String × JVal) := []
  require_user : Bool := true
  volume_templates : Option (List VolumeTemplate) := none
  volume_factory : Option (JVal → List VolumeSpec) := none
  network_factory : Option (JVal → NetworkPolicyProfile → NetworkConfig) := none
  connection_secret_factory : Option (PermitEvent → WorkspaceSpec → JVal → JVal) := none
  connection_info_factory : Option (WorkspaceSpec → JVal → JVal → JVal) := none

/-- `DEFAULT_PROXY_SELECTOR`. -/
def DEFAULT_PROXY_SELECTOR : JVal :=
  .jObj
    [("namespaceSelector", .jObj [("matchLabels", .jObj [("kubernetes.io/metadata.name", .jStr "infra")])]),
     ("podSelector", .jObj [("matchLabels", .jObj [("app", .jStr "spe-proxy")])])]

/-- `_ingress_volume_factory`. -/
def ingressVolumeFactory (payload : JVal) : List VolumeSpec :=
  let data_holders := jGetD payload "data_holders" (.jArr [])
  if !jTruthy data_holders then
    [{ name := .jStr "uploads"
       storage_class := jGetD payload "uploads_storage_class" (.jStr "spe-ceph-rbd")
       size := jGetD payload "uploads_volume_size" (.jStr "20Gi")
       access_modes := .jArr [.jStr "ReadWriteOnce"]
       read_only := .jBool false
       mount_path := .jStr "/uploads" }]
  else
    match data_holders with
    | .jArr holders =>
        holders.map fun holder =>
          let holder_id := jGetD holder "id" (.jStr "dh")
          { name := .jStr ("uploads-" ++ pyStr holder_id)
            storage_class := jGetD holder "storage_class" (.jStr "spe-ceph-rbd")
            size := jGetD holder "size" (jGetD payload "uploads_volume_size" (.jStr "20Gi"))
            access_modes := .jArr [.jStr "ReadWriteOnce"]
            read_only := .jBool false
            mount_path := .jStr ("/uploads/" ++ pyStr holder_id) }
    | _ => []  -- a truthy non-list `data_holders` makes Python raise on iteration

/-- `_ingress_network_factory`. -/
def ingressNetworkFactory (payload : JVal) (profile : NetworkPolicyProfile) : NetworkConfig :=
  let mkRules (key : String) (cidrD : JVal) (portsD : JVal) : List CIDRRule :=
    match jGetD payload key (.jArr []) with
    | .jArr rules =>
        rules.map fun rule =>
          { cidr := jGetD rule "cidr" cidrD, ports := jGetD rule "ports" portsD }
    | _ => []  -- non-list values make Python raise on iteration
  { profile := profile
    ingress := mkRules "allowed_ingress" (.jStr "0.0.0.0/0") (.jArr [.jInt 22])
    egress := mkRules "allowed_egress" (.jStr "0.0.0.0/0") (.jArr []) }

/-- `_setup_network_factory`. -/
def setupNetworkFactory (payload : JVal) (profile : NetworkPolicyProfile) : NetworkConfig :=
  let selector := pyOr (jGetD payload "proxy_selector" .jNull) DEFAULT_PROXY_SELECTOR
  { profile := profile, proxy_selector := selector }

/-- `_ingress_connection_secret_factory`. -/
def ingressConnectionSecretFactory (event : PermitEvent) (_workspace : WorkspaceSpec)
    (payload : JVal) : JVal :=
  if jTruthy (jGetD payload "connection_secret" .jNull) then
    jGetD payload "connection_secret" .jNull
  else
    .jObj
      [("username", jGetD payload "service_user" (.jStr ("permit-" ++ event.permit_id))),
       ("password", jGetD payload "service_password" (.jStr "generated-secret"))]

/-- `_ingress_connection_info_factory`. -/
def ingressConnectionInfoFactory (workspace : WorkspaceSpec) (payload : JVal)
    (secret : JVal) : JVal :=
  if jTruthy (jGetD payload "connection" .jNull) then
    jGetD payload "connection" .jNull
  else
    let username := jGetD payload "service_user" .jNull
    let password := jGetD payload "service_password" .jNull
    let username := if jTruthy secret then jGetD secret "username" username else username
    let password := if jTruthy secret then jGetD secret "password" password else password
    .jObj
      [("protocol", .jStr "sftp"),
       ("host", .jStr (pyStr workspace.name ++ "." ++ pyStr workspace.nspace
          ++ ".svc.cluster.local")),
       ("port", .jInt 22),
       ("username", username),
       ("password", password)]

/-- `WORKSPACE_CONFIG`. -/
def workspaceConfig : WorkspaceType → WorkspaceConfigEntry
  | .INGRESS =>
    { image := "ghcr.io/spe/workspace-ingress:stable"
      network_profile := .INGRESS
      default_env := [("SERVICE_MODE", .jStr "sftp")]
      require_user := false
      volume_factory := some ingressVolumeFactory
      network_factory := some ingressNetworkFactory
      connection_secret_factory := some ingressConnectionSecretFactory
      connection_info_factory := some ingressConnectionInfoFactory }
  | .PREPROCESS =>
    { image := "ghcr.io/spe/workspace-hdab-preprocess:stable"
      network_profile := .PREPROCESS
      volume_templates := some
        [{ name := "raw", mount_path := "/raw", read_only := true
           access_modes := ["ReadOnlyMany"], default_size := "200Gi"
           size_key := some "raw_volume_size" },
         { name := "prepared", mount_path := "/prepared", read_only := false
           access_modes := ["ReadWriteOnce"], default_size := "200Gi"
           size_key := some "prepared_volume_size" }] }
  | .REVIEW =>
    { image := "ghcr.io/spe/workspace-hdab-review:stable"
      network_profile := .REVIEW
      volume_templates := some
        [{ name := "prepared", mount_path := "/prepared", read_only := true
           access_modes := ["ReadOnlyMany"], default_size := "200Gi"
           size_key := some "prepared_volume_size" }] }
  | .SETUP =>
    { image := "ghcr.io/spe/workspace-researcher-setup:stable"
      network_profile := .SETUP
      default_env := [("PROXY_ENABLED", .jStr "true")]
      volume_templates := some
        [{ name := "project", mount_path := "/project", read_only := false
           access_modes := ["ReadWriteMany"], default_size := "100Gi"
           size_key := some "project_volume_size" }]
      network_factory := some setupNetworkFactory }
  | .SETUP_REVIEW =>
    { image := "ghcr.io/spe/workspace-setup-review:stable"
      network_profile := .SETUP_REVIEW
      volume_templates := some
        [{ name := "project", mount_path := "/project", read_only := true
           access_modes := ["ReadOnlyMany"], default_size := "100Gi"
           size_key := some "project_volume_size" }] }
  | .ANALYSIS =>
    { image := "ghcr.io/spe/workspace-analysis:stable"
      network_profile := .ANALYSIS
      default_env := [("INTERNET_ACCESS", .jStr "disabled")]
      volume_templates := some
        [{ name := "prepared", mount_path := "/prepared_data", read_only := true
           access_modes := ["ReadOnlyMany"], default_size := "200Gi"
           size_key := some "prepared_volume_size" },
         { name := "outputs", mount_path := "/outputs", read_only := false
           access_modes := ["ReadWriteOnce"], default_size := "200Gi"
           size_key := some "outputs_volume_size" },
         { name := "project", mount_path := "/project", read_only := false
           access_modes := ["ReadWriteMany"], default_size := "100Gi"
           size_key := some "project_volume_size" }] }

/-- `WorkspaceOrchestrator._stack_name`: `"{prefix}-{permit_id}-{stage}"`,
prefixed `"{org}/{project}/"` when a (truthy) organization is configured. -/
def stackNameStr (cfg : AppConfig) (permit_id : String) (wt : WorkspaceType) : String :=
  let base := cfg.pulumi.stackPfx ++ "-" ++ permit_id ++ "-" ++ wt.value
  match cfg.pulumi.organization with
  | some org => if org == "" then base else org ++ "/" ++ cfg.pulumi.project_name ++ "/" ++ base
  | none => base

/-- The user payload `_resolve_workspace_user` draws from:
`workspace_payload.get("user") or payload.get("assignedUser") or
payload.get("user") or {}`. -/
def resolvedUserPayload (payload workspace_payload : JVal) : JVal :=
  pyOr (jGetD workspace_payload "user" .jNull)
    (pyOr (jGetD payload "assignedUser" .jNull)
      (pyOr (jGetD payload "user" .jNull) (.jObj [])))

/-- `WorkspaceOrchestrator._resolve_workspace_user`.  `.error` models the
raised `ValueError`. -/
def resolveWorkspaceUser (permit_id : String) (wt : WorkspaceType)
    (payload workspace_payload : JVal) (require_user : Bool) :
    Except PyErr WorkspaceUser :=
  let user_payload := resolvedUserPayload payload workspace_payload
  let username := jGetD user_payload "username" .jNull
  if !jTruthy username && require_user then
    .error ⟨"Permit event missing assigned user for " ++ wt.value ++ " workspace", "ValueError"⟩
  else
    let username := if jTruthy username then username else .jStr ("user-" ++ permit_id)
    let raw_uid := (jGet user_payload "uid").getD ((jGet user_payload "id").getD .jNull)
    if raw_uid.isNull && require_user then
      .error ⟨"Permit event missing user identifier for " ++ wt.value ++ " workspace", "ValueError"⟩
    else
      let uid := pyStr (if raw_uid.isNull then .jInt 2000 else raw_uid)
      let raw_gid := (jGet user_payload "gid").getD raw_uid
      let gid := pyStr (if raw_gid.isNull then .jInt 2000 else raw_gid)
      .ok { username := username, uid := .jStr uid, gid := .jStr gid }

/-- Python `len(x)` where defined (`str`, `list`, `dict`). -/
def pyLen : JVal → Option Nat
  | .jStr s => some s.length
  | .jArr xs => some xs.length
  | .jObj kvs => some kvs.length
  | _ => none

/-- The volume dict literal built in `_default_workspace_spec` for default
volumes (same key order as `_plan_to_dict`). -/
def volumeToDict (v : VolumeSpec) : JVal :=
  .jObj [("name", v.name), ("storage_class", v.storage_class), ("size", v.size),
         ("access_modes", v.access_modes), ("read_only", v.read_only),
         ("mount_path", v.mount_path)]

/-- The `VolumeSpec(...)` construction from a payload volume dict in
`_default_workspace_spec` (`.get` with the defaults of that call site). -/
def volumeFromDict (volume : JVal) : VolumeSpec :=
  { name := jGetD volume "name" .jNull
    storage_class := jGetD volume "storage_class" (.jStr "spe-ceph-rbd")
    size := jGetD volume "size" (.jStr "10Gi")
    access_modes := jGetD volume "access_modes" (.jArr [.jStr "ReadWriteOnce"])
    read_only := jGetD volume "read_only" (.jBool false)
    mount_path := jGetD volume "mount_path" .jNull }

/-- `WorkspaceOrchestrator._default_workspace_spec`. -/
def defaultWorkspaceSpec (permit_id : String) (wt : WorkspaceType) (payload : JVal)
    (default_image : String) (default_volumes : List VolumeSpec)
    (default_env : List (String × JVal)) (require_user : Bool) :
    Except PyErr WorkspaceSpec :=
  let workspace_payload := jGetD payload "workspace" (.jObj [])
  let nspace := pyOr (jGetD workspace_payload "namespace" .jNull)
      (.jStr ("permit-" ++ permit_id))
  let name := pyOr (jGetD workspace_payload "name" .jNull)
      (.jStr (permit_id ++ "-" ++ wt.value))
  match resolveWorkspaceUser permit_id wt payload workspace_payload require_user with
  | .error e => .error e
  | .ok user =>
    let container : WorkspaceContainer :=
      { image := pyOr (jGetD workspace_payload "image" .jNull) (.jStr default_image)
        resources := pyOr (jGetD workspace_payload "resources" .jNull) (.jObj [])
        env := dictMerge default_env (jEntries (jGetD workspace_payload "env" (.jObj [])))
        command := jGetD workspace_payload "command" .jNull
        args := jGetD workspace_payload "args" .jNull
        ports := pyOr (jGetD workspace_payload "ports" .jNull) (.jArr [.jInt 3389]) }
    let raw_volumes := jGetD workspace_payload "volumes" .jNull
    let raw_volumes : List JVal :=
      if raw_volumes.isNull || pyLen raw_volumes == some 0 then
        default_volumes.map volumeToDict
      else
        match raw_volumes with
        | .jArr xs => xs
        | _ => []  -- unsized / non-iterable values make Python raise here
    .ok { name := name, nspace := nspace, container := container, user := user
          volumes := raw_volumes.map volumeFromDict
          service_account_name := jGetD workspace_payload "service_account" .jNull
          replicas := jGetD workspace_payload "replicas" (.jInt 1)
          annotations := jGetD workspace_payload "annotations" (.jObj []) }

/-- `WorkspaceOrchestrator._default_connection` (the RDP descriptor). -/
def defaultConnection (workspace : WorkspaceSpec) : JVal :=
  .jObj [("protocol", .jStr "rdp"),
         ("host", .jStr (pyStr workspace.name ++ "." ++ pyStr workspace.nspace
            ++ ".svc.cluster.local")),
         ("port", match workspace.container.ports with
                  | .jArr (p :: _) => p  -- `ports[0] if ports else 3389`
                  | _ => .jInt 3389),
         ("username", workspace.user.username),
         ("password", .jStr "managed-in-secret")]

/-- `WorkspaceOrchestrator._build_plan_from_config` (including
`_resolve_default_volumes`); every per-stage builder delegates here. -/
def buildPlanFromConfig (cfg : AppConfig) (event : PermitEvent) (wt : WorkspaceType) :
    Except PyErr WorkspacePlan :=
  let payload := pyOr event.payload (.jObj [])
  let config := workspaceConfig wt
  let default_volumes :=
    match config.volume_factory with
    | some f => f payload
    | none =>
      match config.volume_templates with
      | some ts => ts.map (·.buildVol payload)
      | none => []
  match defaultWorkspaceSpec event.permit_id wt payload config.image default_volumes
      config.default_env config.require_user with
  | .error e => .error e
  | .ok workspace =>
    let network :=
      match config.network_factory with
      | some f => f payload config.network_profile
      | none => { profile := config.network_profile }
    let connection_secret := jGetD payload "connection_secret" .jNull
    let connection_secret :=
      match config.connection_secret_factory with
      | some f => f event workspace payload
      | none => connection_secret
    let connection_info := jGetD payload "connection" .jNull
    let connection_info :=
      if !jTruthy connection_info then
        match config.connection_info_factory with
        | some f => f workspace payload connection_secret
        | none => defaultConnection workspace
      else connection_info
    .ok { stack_name := .jStr (stackNameStr cfg event.permit_id wt)
          workspace_spec := workspace
          network := network
          connection_secret := connection_secret
          connection_info := connection_info }

/-- The CIDR-rule dict literal written by `_plan_to_dict`. -/
def ruleToDict (r : CIDRRule) : JVal := .jObj [("cidr", r.cidr), ("ports", r.ports)]

/-- `WorkspaceOrchestrator._plan_to_dict`. -/
def planToDict (plan : WorkspacePlan) : JVal :=
  .jObj
    [("stack_name", plan.stack_name),
     ("workspace", .jObj
       [("name", plan.workspace_spec.name),
        ("namespace", plan.workspace_spec.nspace),
        ("service_account", plan.workspace_spec.service_account_name),
        ("replicas", plan.workspace_spec.replicas),
        ("annotations", plan.workspace_spec.annotations),
        ("container", .jObj
          [("image", plan.workspace_spec.container.image),
           ("resources", plan.workspace_spec.container.resources),
           ("env", .jObj plan.workspace_spec.container.env),
           ("command", plan.workspace_spec.container.command),
           ("args", plan.workspace_spec.container.args),
           ("ports", plan.workspace_spec.container.ports)]),
        ("user", .jObj
          [("username", plan.workspace_spec.user.username),
           ("uid", plan.workspace_spec.user.uid),
           ("gid", plan.workspace_spec.user.gid)]),
        ("volumes", .jArr (plan.workspace_spec.volumes.map volumeToDict))]),
     ("network", .jObj
       [("profile", .jStr plan.network.profile.value),
        ("ingress", .jArr (plan.network.ingress.map ruleToDict)),
        ("egress", .jArr (plan.network.egress.map ruleToDict)),
        ("proxy_selector", plan.network.proxy_selector)]),
     ("connection_secret", plan.connection_secret),
     ("connection_info", plan.connection_info)]

/-- `x.get('...', [])` followed by iteration: non-list values raise. -/
def asArr : JVal → Option (List JVal)
  | .jArr xs => some xs
  | _ => none

/-- The `VolumeSpec(...)` construction in `_plan_from_dict` (`vol['name']`
is a required index; the rest use `.get` defaults). -/
def volumeFromStoredDict (vol : JVal) : Option VolumeSpec :=
  match jGet vol "name" with
  | some n =>
    some { name := n
           storage_class := jGetD vol "storage_class" (.jStr "spe-ceph-rbd")
           size := jGetD vol "size" (.jStr "10Gi")
           access_modes := jGetD vol "access_modes" (.jArr [.jStr "ReadWriteOnce"])
           read_only := jGetD vol "read_only" (.jBool false)
           mount_path := jGetD vol "mount_path" .jNull }
  | none => none

/-- The `CIDRRule(rule['cidr'], rule.get('ports', []))` construction in
`_plan_from_dict`. -/
def ruleFromDict (rule : JVal) : Option CIDRRule :=
  match jGet rule "cidr" with
  | some c => some { cidr := c, ports := jGetD rule "ports" (.jArr []) }
  | none => none

/-- A Python list comprehension over a fallible element translation:
`none` as soon as one element fails (the raised exception). -/
def optionMapList {α β : Type} (f : α → Option β) : List α → Option (List β)
  | [] => some []
  | x :: xs =>
    match f x, optionMapList f xs with
    | some y, some ys => some (y :: ys)
    | _, _ => none

/-- The `WorkspaceContainer(...)` construction in `_plan_from_dict`
(`container_data['image']` is a required index). -/
def containerFromStoredDict (container_data : JVal) : Option WorkspaceContainer :=
  match jGet container_data "image" with
  | none => none
  | some image =>
    some { image := image
           resources := jGetD container_data "resources" (.jObj [])
           -- stored plans (images of `_plan_to_dict`) always carry a dict here
           env := jEntries (jGetD container_data "env" (.jObj []))
           command := jGetD container_data "command" .jNull
           args := jGetD container_data "args" .jNull
           ports := jGetD container_data "ports" (.jArr [.jInt 3389]) }

/-- The `WorkspaceUser(...)` construction in `_plan_from_dict`
(all three fields are required indices). -/
def userFromStoredDict (user_data : JVal) : Option WorkspaceUser :=
  match jGet user_data "username", jGet user_data "uid", jGet user_data "gid" with
  | some username, some uid, some gid => some { username := username, uid := uid, gid := gid }
  | _, _, _ => none

/-- The `WorkspaceSpec(...)` construction in `_plan_from_dict`. -/
def workspaceFromStoredDict (workspace_data : JVal) : Option WorkspaceSpec :=
  match jGet workspace_data "container", jGet workspace_data "user",
        jGet workspace_data "name", jGet workspace_data "namespace" with
  | some container_data, some user_data, some name, some nspace =>
    match containerFromStoredDict container_data, userFromStoredDict user_data,
          (asArr (jGetD workspace_data "volumes" (.jArr []))).bind
            (optionMapList volumeFromStoredDict) with
    | some container, some user, some volumes =>
      some { name := name, nspace := nspace, container := container, user := user
             volumes := volumes
             service_account_name := jGetD workspace_data "service_account" .jNull
             replicas := jGetD workspace_data "replicas" (.jInt 1)
             annotations := jGetD workspace_data "annotations" (.jObj []) }
    | _, _, _ => none
  | _, _, _, _ => none

/-- The `NetworkConfig(...)` construction in `_plan_from_dict`
(`network_data['profile']` is a required index; an unknown profile value
raises). -/
def networkFromStoredDict (network_data : JVal) : Option NetworkConfig :=
  match (jGet network_data "profile").bind parseProfile,
        (asArr (jGetD network_data "ingress" (.jArr []))).bind (optionMapList ruleFromDict),
        (asArr (jGetD network_data "egress" (.jArr []))).bind (optionMapList ruleFromDict) with
  | some profile, some ingress, some egress =>
    some { profile := profile, ingress := ingress, egress := egress
           proxy_selector := jGetD network_data "proxy_selector" .jNull }
  | _, _, _ => none

/-- `WorkspaceOrchestrator._plan_from_dict`.  `none` models the exceptions
Python raises on required indices (`data['workspace']`, `vol['name']`, …)
and on an unknown network profile. -/
def planFromDict (data : JVal) : Option WorkspacePlan :=
  match jGet data "workspace", jGet data "network" with
  | some workspace_data, some network_data =>
    match workspaceFromStoredDict workspace_data, networkFromStoredDict network_data with
    | some workspace_spec, some network =>
      some { stack_name := jGetD data "stack_name" (.jStr "")
             workspace_spec := workspace_spec
             network := network
             connection_secret := jGetD data "connection_secret" .jNull
             connection_info := jGetD data "connection_info" .jNull }
    | _, _ => none
  | _, _ => none

/-- First-match association lookup (Redis-style point read). -/
def lookupA {α β : Type} [BEq α] (l : List (α × β)) (k : α) : Option β :=
  (l.find? (fun kv => kv.1 == k)).map (·.2)

/-- Association point write (replace-or-insert). -/
def setA {α β : Type} [BEq α] (l : List (α × β)) (k : α) (v : β) : List (α × β) :=
  (k, v) :: l.filter (fun kv => !(kv.1 == k))

/-- Association point delete. -/
def delA {α β : Type} [BEq α] (l : List (α × β)) (k : α) : List (α × β) :=
  l.filter (fun kv => !(kv.1 == k))

/-- The orchestrator-visible state store (`WorkspaceStateManager` keys,
structured: status / history / connection per permit, plans per
`(permit, workspace_type.value)`).  Stored plans are the JSON documents
`set_plan` serializes. -/
structure StoreState where
  status : List (String × String) := []
  history : List (String × String) := []
  connection : List (String × JVal) := []
  plans : List ((String × String) × JVal) := []
  deriving Repr, DecidableEq

/-- `WorkspaceStateManager.set_status`: point-writes the status key and
pushes a history entry (newest first). -/
def smSetStatus (st : StoreState) (permit_id status : String) : StoreState :=
  { st with status := setA st.status permit_id status
            history := (permit_id, status) :: st.history }

/-- `WorkspaceStateManager.set_connection_details`. -/
def smSetConnection (st : StoreState) (permit_id : String) (conn : JVal) : StoreState :=
  { st with connection := setA st.connection permit_id conn }

/-- `WorkspaceStateManager.set_plan`. -/
def smSetPlan (st : StoreState) (permit_id wtv : String) (plan : JVal) : StoreState :=
  { st with plans := setA st.plans (permit_id, wtv) plan }

/-- `WorkspaceStateManager.delete_plan`. -/
def smDeletePlan (st : StoreState) (permit_id wtv : String) : StoreState :=
  { st with plans := delA st.plans (permit_id, wtv) }

/-- `WorkspaceStateManager.get_plan` (the store holds parsed JSON, so the
invalid-JSON soft-failure path cannot arise here). -/
def smGetPlan (st : StoreState) (permit_id wtv : String) : Option JVal :=
  lookupA st.plans (permit_id, wtv)

/-- `WorkspaceStateManager.get_status`. -/
def smGetStatus (st : StoreState) (permit_id : String) : Option String :=
  lookupA st.status permit_id

/-- `WorkspaceStateManager.clear_permit`, at the structured level: drop
every entry of the permit (the raw-key model below exposes the prefix
scan). -/
def smClearPermit (st : StoreState) (permit_id : String) : StoreState :=
  { status := delA st.status permit_id
    history := st.history.filter (fun kv => !(kv.1 == permit_id))
    connection := delA st.connection permit_id
    plans := st.plans.filter (fun kv => !(kv.1.1 == permit_id)) }

/-- Observable side effects of one handled event: driver calls, bus
publications, and state-store writes, in execution order. -/
inductive Effect where
  | driverSelect (stack : JVal) (found : Bool)
  | driverDestroy (stack : JVal) (ok : Bool)
  | driverApply (stack : JVal) (ok : Bool)
  | removeStackFx (stack : JVal)
  | publishFx (routing_key : String) (payload : JVal)
  | auditFx (permitId action outcome : String) (details : List (String × JVal))
  | setStatusW (permitId status : String)
  | setConnectionW (permitId : String) (conn : JVal)
  | setPlanW (permitId wtv : String) (plan : JVal)
  | deletePlanW (permitId wtv : String)
  | clearPermitW (permitId : String)
  deriving Repr, DecidableEq

/-- The stack driver oracle: outcome of each Pulumi operation, keyed by
stack name.  `applyRes` covers `create_or_select/refresh/up`; `destroyRes`
is `some e` when `stack.destroy` raises `e`; `selectFound = false` models
`StackNotFoundError`. -/
structure Driver where
  selectFound : JVal → Bool
  destroyRes : JVal → Option PyErr
  applyRes : JVal → Except PyErr (List (String × JVal))

/-- Result of a state+trace computation. -/
structure Out (α : Type) where
  st : StoreState
  fx : List Effect
  res : α

/-- A Python-level outcome: normal return or a propagating exception. -/
inductive PyRes (α : Type) where
  | ok (a : α)
  | exn (e : PyErr)
  deriving DecidableEq, Repr

/-- `WorkspaceOrchestrator._publish_audit_event`: null-valued details are
dropped before publication. -/
def auditEffect (permit_id action outcome : String) (details : List (String × JVal)) : Effect :=
  .auditFx permit_id action outcome (details.filter (fun kv => !kv.2.isNull))

/-- The failure-event payload built in
`WorkspaceOrchestrator._handle_operation_failure`. -/
def failurePayload (permit_id action status_value : String) (error : PyErr)
    (wt : Option WorkspaceType) (stack : JVal)
    (extra : Option (List (String × JVal))) : JVal :=
  .jObj
    ([("permitId", .jStr permit_id), ("action", .jStr action),
      ("status", .jStr status_value),
      ("error", .jObj [("message", .jStr error.msg), ("type", .jStr error.etype)])]
     ++ (match wt with | some w => [("workspaceType", .jStr w.value)] | none => [])
     ++ (if jTruthy stack then [("stackName", stack)] else [])
     ++ (match extra with | some d => [("details", .jObj d)] | none => []))

/-- `WorkspaceOrchestrator._handle_operation_failure`: set the failure
status, publish the failure event on `routing_key`, publish a FAILURE
audit event. -/
def handleOperationFailure (st : StoreState) (permit_id : String)
    (wt : Option WorkspaceType) (action : String) (error : PyErr)
    (status : WorkspaceLifecycleStatus) (plan : Option WorkspacePlan)
    (stack_name : JVal) (routing_key : String)
    (extra : Option (List (String × JVal))) : Out Unit :=
  let stack := pyOr stack_name (match plan with | some p => p.stack_name | none => .jNull)
  let status_value := status.value
  let audit_details :=
    dictMerge
      [("workspaceType", match wt with | some w => .jStr w.value | none => .jNull),
       ("stackName", stack),
       ("status", .jStr status_value),
       ("error", .jStr error.msg)]
      (extra.getD [])
  { st := smSetStatus st permit_id status_value
    fx := [.setStatusW permit_id status_value,
           .publishFx routing_key (failurePayload permit_id action status_value error wt stack extra),
           auditEffect permit_id action "FAILURE" audit_details]
    res := () }

/-- `WorkspaceOrchestrator._apply_stack`: run the driver apply; on failure
run the provisioning failure protocol and return no plan; on success
return the plan with merged exports. -/
def applyStack (_cfg : AppConfig) (D : Driver) (permit_id : String) (wt : WorkspaceType)
    (plan : WorkspacePlan) (action : String) (st : StoreState) : Out (Option WorkspacePlan) :=
  match D.applyRes plan.stack_name with
  | .error e =>
    let o := handleOperationFailure st permit_id (some wt) action e .PROVISIONING_FAILED
      (some plan) .jNull "permit.workspace.provisioning_failed"
      (some [("stage", .jStr "apply")])
    { st := o.st, fx := .driverApply plan.stack_name false :: o.fx, res := none }
  | .ok outs =>
    { st := st, fx := [.driverApply plan.stack_name true]
      res := some { plan with exports := dictMerge plan.exports outs } }

/-- `WorkspaceOrchestrator._apply_and_record`. -/
def applyAndRecord (cfg : AppConfig) (D : Driver) (permit_id : String)
    (wt : WorkspaceType) (plan : WorkspacePlan) (action : String)
    (st : StoreState) : Out Unit :=
  let record (plan : WorkspacePlan) (st : StoreState) (fx0 : List Effect) : Out Unit :=
    let (st1, fx1) :=
      if jTruthy plan.connection_info then
        (smSetConnection st permit_id plan.connection_info,
         [Effect.setConnectionW permit_id plan.connection_info])
      else (st, [])
    let st2 := smSetPlan st1 permit_id wt.value (planToDict plan)
    let st3 := smSetStatus st2 permit_id wt.upperValue
    let details := [("workspaceType", JVal.jStr wt.value),
                    ("stackName", plan.stack_name),
                    ("pulumiDisabled", JVal.jBool cfg.disable_pulumi)]
    { st := st3
      fx := fx0 ++ fx1 ++
        [.setPlanW permit_id wt.value (planToDict plan),
         .setStatusW permit_id wt.upperValue,
         auditEffect permit_id action "SUCCESS" details]
      res := () }
  if cfg.disable_pulumi then
    record plan st []
  else
    let o := applyStack cfg D permit_id wt plan action st
    match o.res with
    | none => { st := o.st, fx := o.fx, res := () }
    | some plan2 => record plan2 o.st o.fx

/-- `WorkspaceOrchestrator._provision_workspace` (the per-stage builders
all delegate to `_build_plan_from_config`). -/
def provisionWorkspace (cfg : AppConfig) (D : Driver) (event : PermitEvent)
    (wt : WorkspaceType) (st : StoreState) : Out Unit :=
  match buildPlanFromConfig cfg event wt with
  | .error e =>
    handleOperationFailure st event.permit_id (some wt) "PROVISION_WORKSPACE" e
      .PROVISIONING_FAILED none .jNull "permit.workspace.provisioning_failed"
      (some [("stage", .jStr "plan_build")])
  | .ok plan =>
    applyAndRecord cfg D event.permit_id wt plan "PROVISION_WORKSPACE" st

/-- `WorkspaceOrchestrator._destroy_stack`. -/
def destroyStack (cfg : AppConfig) (D : Driver) (permit_id : String)
    (wt : WorkspaceType) (st : StoreState) : Out Bool :=
  let stack_name : JVal := .jStr (stackNameStr cfg permit_id wt)
  let stored_plan := smGetPlan st permit_id wt.value
  let deleteStored (st : StoreState) : StoreState × List Effect :=
    if stored_plan.isSome then
      (smDeletePlan st permit_id wt.value, [Effect.deletePlanW permit_id wt.value])
    else (st, [])
  if cfg.disable_pulumi then
    let (st1, fx1) := deleteStored st
    { st := st1
      fx := fx1 ++ [auditEffect permit_id "DESTROY_WORKSPACE" "SUCCESS"
        [("workspaceType", .jStr wt.value), ("stackName", stack_name),
         ("pulumiDisabled", .jBool true)]]
      res := true }
  else if !(D.selectFound stack_name) then
    let (st1, fx1) := deleteStored st
    { st := st1
      fx := .driverSelect stack_name false :: fx1 ++
        [auditEffect permit_id "DESTROY_WORKSPACE" "SUCCESS"
          [("workspaceType", .jStr wt.value), ("stackName", stack_name),
           ("message", .jStr "Stack not found")]]
      res := true }
  else
    match D.destroyRes stack_name with
    | some e =>
      let o := handleOperationFailure st permit_id (some wt) "DESTROY_WORKSPACE" e
        .DESTROY_FAILED none stack_name "permit.workspace.destroy_failed"
        (some [("stage", .jStr "destroy")])
      { st := o.st
        fx := .driverSelect stack_name true :: .driverDestroy stack_name false :: o.fx
        res := false }
    | none =>
      let (st1, fx1) := deleteStored st
      { st := st1
        fx := .driverSelect stack_name true :: .driverDestroy stack_name true ::
          .removeStackFx stack_name :: fx1 ++
          [auditEffect permit_id "DESTROY_WORKSPACE" "SUCCESS"
            [("workspaceType", .jStr wt.value), ("stackName", stack_name)]]
        res := true }

/-- `WorkspaceOrchestrator._scale_stack`.  `.exn` models the exception
Python raises when the stored plan does not deserialize
(`_plan_from_dict` on a malformed document). -/
def scaleStack (cfg : AppConfig) (D : Driver) (permit_id : String)
    (wt : WorkspaceType) (replicas : Int) (st : StoreState) : Out (PyRes Bool) :=
  let stack_name : JVal := .jStr (stackNameStr cfg permit_id wt)
  match smGetPlan st permit_id wt.value with
  | none => { st := st, fx := [], res := .ok false }
  | some plan_data =>
    match planFromDict plan_data with
    | none => { st := st, fx := [], res := .exn ⟨"stored plan is not deserializable", "KeyError"⟩ }
    | some plan0 =>
      let plan := { plan0 with
        stack_name := stack_name
        workspace_spec := { plan0.workspace_spec with replicas := .jInt replicas } }
      let original_profile := plan.network.profile
      let plan :=
        if replicas == 0 then
          { plan with network := { plan.network with profile := .STOPPED } }
        else plan
      if cfg.disable_pulumi then
        let plan :=
          if replicas > 0 then
            { plan with network := { plan.network with profile := original_profile } }
          else plan
        { st := smSetPlan st permit_id wt.value (planToDict plan)
          fx := [.setPlanW permit_id wt.value (planToDict plan),
                 auditEffect permit_id "SCALE_WORKSPACE" "SUCCESS"
                   [("workspaceType", .jStr wt.value), ("stackName", stack_name),
                    ("replicas", .jInt replicas), ("pulumiDisabled", .jBool true)]]
          res := .ok true }
      else
        let o := applyStack cfg D permit_id wt plan "SCALE_WORKSPACE" st
        match o.res with
        | none => { st := o.st, fx := o.fx, res := .ok false }
        | some plan2 =>
          let plan2 :=
            if replicas > 0 then
              { plan2 with network := { plan2.network with profile := original_profile } }
            else plan2
          { st := smSetPlan o.st permit_id wt.value (planToDict plan2)
            fx := o.fx ++
              [.setPlanW permit_id wt.value (planToDict plan2),
               auditEffect permit_id "SCALE_WORKSPACE" "SUCCESS"
                 [("workspaceType", .jStr wt.value), ("stackName", stack_name),
                  ("replicas", .jInt replicas)]]
            res := .ok true }

/-- `WorkspaceOrchestrator._stop_workspace`. -/
def stopWorkspace (cfg : AppConfig) (D : Driver) (permit_id : String)
    (st : StoreState) : Out (PyRes Unit) :=
  let o := scaleStack cfg D permit_id .ANALYSIS 0 st
  match o.res with
  | .exn e => { st := o.st, fx := o.fx, res := .exn e }
  | .ok success =>
    if success then
      { st := smSetStatus o.st permit_id "STOPPED"
        fx := o.fx ++ [.setStatusW permit_id "STOPPED",
          auditEffect permit_id "STOP_WORKSPACE" "SUCCESS"
            [("workspaceType", .jStr WorkspaceType.ANALYSIS.value)]]
        res := .ok () }
    else
      { st := o.st
        fx := o.fx ++ [auditEffect permit_id "STOP_WORKSPACE" "FAILURE"
          [("workspaceType", .jStr WorkspaceType.ANALYSIS.value),
           ("message", .jStr "Scaling operation failed; see prior audit events.")]]
        res := .ok () }

/-- `WorkspaceOrchestrator._start_workspace`. -/
def startWorkspace (cfg : AppConfig) (D : Driver) (permit_id : String)
    (st : StoreState) : Out (PyRes Unit) :=
  let o := scaleStack cfg D permit_id .ANALYSIS 1 st
  match o.res with
  | .exn e => { st := o.st, fx := o.fx, res := .exn e }
  | .ok success =>
    if success then
      { st := smSetStatus o.st permit_id "RUNNING"
        fx := o.fx ++ [.setStatusW permit_id "RUNNING",
          auditEffect permit_id "START_WORKSPACE" "SUCCESS"
            [("workspaceType", .jStr WorkspaceType.ANALYSIS.value)]]
        res := .ok () }
    else
      { st := o.st
        fx := o.fx ++ [auditEffect permit_id "START_WORKSPACE" "FAILURE"
          [("workspaceType", .jStr WorkspaceType.ANALYSIS.value),
           ("message", .jStr "Scaling operation failed; see prior audit events.")]]
        res := .ok () }

/-- The destroy loop of `WorkspaceOrchestrator._destroy_all`. -/
def destroyStacks (cfg : AppConfig) (D : Driver) (permit_id : String) :
    List WorkspaceType → StoreState → Out Bool
  | [], st => { st := st, fx := [], res := true }
  | wt :: rest, st =>
    let o := destroyStack cfg D permit_id wt st
    let o2 := destroyStacks cfg D permit_id rest o.st
    { st := o2.st, fx := o.fx ++ o2.fx, res := o.res && o2.res }

/-- `WorkspaceOrchestrator._destroy_all`. -/
def destroyAll (cfg : AppConfig) (D : Driver) (permit_id : String)
    (st : StoreState) : Out Unit :=
  let o := destroyStacks cfg D permit_id workspaceTypeList st
  let (st1, fx1) :=
    if o.res then (smClearPermit o.st permit_id, [Effect.clearPermitW permit_id])
    else (o.st, [])
  let base := [("workspaceTypes", JVal.jArr (workspaceTypeList.map (fun w => .jStr w.value)))]
  let (outcome, details) :=
    if o.res then ("SUCCESS", base)
    else ("FAILURE", base ++
      [("message", JVal.jStr "One or more workspace stacks reported failures; review individual audit events.")])
  { st := st1
    fx := o.fx ++ fx1 ++ [auditEffect permit_id "DESTROY_ALL_WORKSPACES" outcome details]
    res := () }

/-- `WorkspaceOrchestrator._handle_status_transition` (the status-update
transition table). -/
def handleStatusTransition (cfg : AppConfig) (D : Driver) (event : PermitEvent)
    (s : PermitStatus) (st : StoreState) : Out (PyRes Unit) :=
  match s with
  | .DATA_PREPARATION_PENDING =>
    let o1 := destroyStack cfg D event.permit_id .INGRESS st
    let o2 := provisionWorkspace cfg D event .PREPROCESS o1.st
    { st := o2.st, fx := o1.fx ++ o2.fx, res := .ok () }
  | .DATA_PREPARATION_REVIEW_PENDING =>
    let o1 := scaleStack cfg D event.permit_id .PREPROCESS 0 st
    match o1.res with
    | .exn e => { st := o1.st, fx := o1.fx, res := .exn e }
    | .ok _ =>
      let o2 := provisionWorkspace cfg D event .REVIEW o1.st
      { st := o2.st, fx := o1.fx ++ o2.fx, res := .ok () }
  | .DATA_PREPARATION_REWORK =>
    let o1 := destroyStack cfg D event.permit_id .REVIEW st
    let o2 := scaleStack cfg D event.permit_id .PREPROCESS 1 o1.st
    match o2.res with
    | .exn e => { st := o2.st, fx := o1.fx ++ o2.fx, res := .exn e }
    | .ok _ =>
      { st := smSetStatus o2.st event.permit_id WorkspaceType.PREPROCESS.upperValue
        fx := o1.fx ++ o2.fx ++
          [.setStatusW event.permit_id WorkspaceType.PREPROCESS.upperValue]
        res := .ok () }
  | .WORKSPACE_SETUP_PENDING =>
    let o1 := destroyStack cfg D event.permit_id .REVIEW st
    let o2 := destroyStack cfg D event.permit_id .PREPROCESS o1.st
    let o3 := provisionWorkspace cfg D event .SETUP o2.st
    { st := o3.st, fx := o1.fx ++ o2.fx ++ o3.fx, res := .ok () }
  | .WORKSPACE_SETUP_REVIEW_PENDING =>
    let o1 := scaleStack cfg D event.permit_id .SETUP 0 st
    match o1.res with
    | .exn e => { st := o1.st, fx := o1.fx, res := .exn e }
    | .ok _ =>
      let o2 := provisionWorkspace cfg D event .SETUP_REVIEW o1.st
      { st := o2.st, fx := o1.fx ++ o2.fx, res := .ok () }
  | .WORKSPACE_SETUP_REWORK =>
    let o1 := destroyStack cfg D event.permit_id .SETUP_REVIEW st
    let o2 := scaleStack cfg D event.permit_id .SETUP 1 o1.st
    match o2.res with
    | .exn e => { st := o2.st, fx := o1.fx ++ o2.fx, res := .exn e }
    | .ok _ =>
      { st := smSetStatus o2.st event.permit_id WorkspaceType.SETUP.upperValue
        fx := o1.fx ++ o2.fx ++
          [.setStatusW event.permit_id WorkspaceType.SETUP.upperValue]
        res := .ok () }
  | .ANALYSIS_ACTIVE =>
    let o1 := destroyStack cfg D event.permit_id .SETUP_REVIEW st
    let o2 := provisionWorkspace cfg D event .ANALYSIS o1.st
    { st := o2.st, fx := o1.fx ++ o2.fx, res := .ok () }
  | .ARCHIVED =>
    let o1 := scaleStack cfg D event.permit_id .ANALYSIS 0 st
    match o1.res with
    | .exn e => { st := o1.st, fx := o1.fx, res := .exn e }
    | .ok _ =>
      { st := smSetStatus o1.st event.permit_id PermitStatus.ARCHIVED.value
        fx := o1.fx ++ [.setStatusW event.permit_id PermitStatus.ARCHIVED.value]
        res := .ok () }
  | .AWAITING_INGRESS => { st := st, fx := [], res := .ok () }

/-- `WorkspaceOrchestrator.handle_event` (the dispatch; a
`permit.status.updated` event with a falsy status falls through every
branch and is only logged). -/
def handleEvent (cfg : AppConfig) (D : Driver) (event : PermitEvent)
    (st : StoreState) : Out (PyRes Unit) :=
  match event.type, event.status with
  | .PERMIT_STATUS_UPDATED, some s => handleStatusTransition cfg D event s st
  | .PERMIT_STATUS_UPDATED, none => { st := st, fx := [], res := .ok () }
  | .PERMIT_INGRESS_INITIATED, _ =>
    let o := provisionWorkspace cfg D event .INGRESS st
    { st := o.st, fx := o.fx, res := .ok () }
  | .WORKSPACE_STOP_REQUESTED, _ => stopWorkspace cfg D event.permit_id st
  | .WORKSPACE_START_REQUESTED, _ => startWorkspace cfg D event.permit_id st
  | .PERMIT_DELETED, _ =>
    let o := destroyAll cfg D event.permit_id st
    { st := o.st, fx := o.fx, res := .ok () }

/-- `EventConsumer._parse_event`.  `body = none` models an empty body
(`{}`); a body holding invalid JSON would raise before this point and is
outside the modelled input space.  `.error` models raised `ValueError`s. -/
def parseEvent (body : Option JVal) (headers : List (String × JVal)) :
    Except PyErr PermitEvent :=
  let payload := match body with | some j => j | none => .jObj []
  let event_type := pyOr (jGetD payload "type" .jNull)
    ((lookupA headers "x-event-type").getD .jNull)
  if !jTruthy event_type then
    .error ⟨"Received message without event type", "ValueError"⟩
  else
    match parseEventType event_type with
    | none => .error ⟨"Unsupported event type", "ValueError"⟩
    | some etype =>
      let statusV := jGetD payload "status" .jNull
      let permit_status := if jTruthy statusV then parsePermitStatus statusV else none
      let permitV := pyOr (jGetD payload "permitId" .jNull) (jGetD payload "permit_id" .jNull)
      if !jTruthy permitV then
        .error ⟨"Event payload missing permitId", "ValueError"⟩
      else
        .ok { type := etype
              permit_id := pyStr permitV
              status := permit_status
              payload := pyOr (jGetD payload "data" .jNull) payload
              message_id := (lookupA headers "x-message-id").getD .jNull }

/-- Delivery disposition of the consumer loop. -/
inductive AckResult where
  | ack | nack
  deriving DecidableEq, Repr

/-- One iteration of `EventConsumer._consume`: parse, hand to the handler,
ack on success, nack (without requeue) on any exception. -/
def consumeOne (cfg : AppConfig) (D : Driver) (body : Option JVal)
    (headers : List (String × JVal)) (st : StoreState) :
    StoreState × List Effect × AckResult :=
  match parseEvent body headers with
  | .error _ => (st, [], .nack)
  | .ok ev =>
    let o := handleEvent cfg D ev st
    match o.res with
    | .ok _ => (o.st, o.fx, .ack)
    | .exn _ => (o.st, o.fx, .nack)

/-- A raw Redis value (string keys map to strings or to lists pushed with
`lpush`). -/
inductive RVal where
  | rstr (s : String)
  | rlist (xs : List String)
  deriving DecidableEq, Repr

/-- The raw Redis keyspace (`WorkspaceStateManager`'s view). -/
abbrev RedisState := List (String × RVal)

/-- `WorkspaceStateManager._status_key`. -/
def statusKey (permit_id : String) : String := "permit:" ++ permit_id ++ ":status"

/-- `WorkspaceStateManager._connection_key`. -/
def connectionKey (permit_id : String) : String := "permit:" ++ permit_id ++ ":connection"

/-- `WorkspaceStateManager._history_key`. -/
def historyKey (permit_id : String) : String := "permit:" ++ permit_id ++ ":history"

/-- `WorkspaceStateManager._plan_key`. -/
def planKey (permit_id workspace_type : String) : String :=
  "permit:" ++ permit_id ++ ":plan:" ++ workspace_type

/-- The literal part of the scan pattern
`permit:{permit_id}:plan:*` used by `clear_permit`. -/
def planKeyPfx (permit_id : String) : String := "permit:" ++ permit_id ++ ":plan:"

/-- Literal string-prefix test (structural, kernel-reducible; agrees with
`String.isPrefixOf`). -/
def strPfx (p s : String) : Bool := p.data.isPrefixOf s.data

/-- Redis `GET`. -/
def rGet (st : RedisState) (k : String) : Option RVal := lookupA st k

/-- `WorkspaceStateManager.clear_permit`: delete the status, connection and
history keys plus every key found by `scan_iter("permit:{id}:plan:*")`.
For permit ids without glob metacharacters the Redis glob pattern matches
exactly the keys with the literal `planKeyPfx` as prefix. -/
def clearPermit (st : RedisState) (permit_id : String) : RedisState :=
  let keys := [statusKey permit_id, connectionKey permit_id, historyKey permit_id]
    ++ (st.map (·.1)).filter (fun k => strPfx (planKeyPfx permit_id) k)
  st.filter (fun kv => !(keys.contains kv.1))

/-- Round trip of a single volume through the stored-plan dict format. -/
theorem volumeFromStoredDict_volumeToDict (v : VolumeSpec) :
    volumeFromStoredDict (volumeToDict v) = some v := rfl

/-- Round trip of a volume list through the stored-plan dict format. -/
theorem mapM_volume_roundtrip (vs : List VolumeSpec) :
    optionMapList volumeFromStoredDict (vs.map volumeToDict) = some vs := by
  induction vs with
  | nil => rfl
  | cons v vs ih => simp [optionMapList, volumeFromStoredDict_volumeToDict, ih]

/-- Round trip of a single CIDR rule. -/
theorem ruleFromDict_ruleToDict (r : CIDRRule) :
    ruleFromDict (ruleToDict r) = some r := rfl

/-- Round trip of a CIDR-rule list. -/
theorem mapM_rule_roundtrip (rs : List CIDRRule) :
    optionMapList ruleFromDict (rs.map ruleToDict) = some rs := by
  induction rs with
  | nil => rfl
  | cons r rs ih => simp [optionMapList, ruleFromDict_ruleToDict, ih]

/-- Profile values written by `_plan_to_dict` parse back to themselves. -/
theorem parseProfile_value (p : NetworkPolicyProfile) :
    parseProfile (.jStr p.value) = some p := by
  cases p <;> rfl

/-- C3 (amended): deserializing a serialized plan restores every
serialized field; `exports` (not serialized by `_plan_to_dict`) comes back
empty and `refresh` resets to its default. -/
theorem plan_roundtrip_amended (p : WorkspacePlan) :
    planFromDict (planToDict p) = some { p with exports := [], refresh := true } := by
  obtain ⟨sn, ws, nw, cs, ci, ex, rf⟩ := p
  obtain ⟨nm, ns, c, u, vols, sa, rep, ann⟩ := ws
  obtain ⟨im, rs, env, cmd, ags, pts⟩ := c
  obtain ⟨un, uid, gid⟩ := u
  obtain ⟨pf, ing, eg, px⟩ := nw
  simp [planFromDict, planToDict, workspaceFromStoredDict, networkFromStoredDict,
    containerFromStoredDict, userFromStoredDict, jGet, jGetD, jEntries, asArr,
    mapM_volume_roundtrip, mapM_rule_roundtrip, parseProfile_value, List.find?]

/-- Unfolding lemma for association lookup. -/
theorem lookupA_cons {α β : Type} [BEq α] [LawfulBEq α] (a : α) (b : β)
    (l : List (α × β)) (k : α) :
    lookupA ((a, b) :: l) k = if a == k then some b else lookupA l k := by
  by_cases h : a = k
  · subst h; simp [lookupA, List.find?]
  · have hb : (a == k) = false := by simpa using h
    simp [lookupA, List.find?, hb]

/-- Filtering away every entry of a key makes its lookup `none`. -/
theorem lookupA_filter_false {α β : Type} [BEq α] [LawfulBEq α] (p : α × β → Bool) (k : α)
    (h : ∀ v, p (k, v) = false) (l : List (α × β)) :
    lookupA (l.filter p) k = none := by
  induction l with
  | nil => rfl
  | cons kv l ih =>
    obtain ⟨a, b⟩ := kv
    by_cases ha : a = k
    · subst ha; simp [List.filter_cons, h b, ih]
    · cases hp : p (a, b)
      · simp [List.filter_cons, hp, ih]
      · have hb : (a == k) = false := by simpa using ha
        simp [List.filter_cons, hp, lookupA_cons, hb, ih]

/-- A filter that keeps every entry of a key preserves its lookup. -/
theorem lookupA_filter_true {α β : Type} [BEq α] [LawfulBEq α] (p : α × β → Bool) (k : α)
    (h : ∀ v, p (k, v) = true) (l : List (α × β)) :
    lookupA (l.filter p) k = lookupA l k := by
  induction l with
  | nil => rfl
  | cons kv l ih =>
    obtain ⟨a, b⟩ := kv
    by_cases ha : a = k
    · subst ha; simp [List.filter_cons, h b, lookupA_cons, ih]
    · cases hp : p (a, b)
      · have hb : (a == k) = false := by simpa using ha
        simp [List.filter_cons, hp, lookupA_cons, hb, ih]
      · have hb : (a == k) = false := by simpa using ha
        simp [List.filter_cons, hp, lookupA_cons, hb, ih]

/-- A key absent before filtering is absent after. -/
theorem lookupA_filter_of_none {α β : Type} [BEq α] [LawfulBEq α] (p : α × β → Bool) (k : α)
    (l : List (α × β)) (h : lookupA l k = none) :
    lookupA (l.filter p) k = none := by
  induction l with
  | nil => rfl
  | cons kv l ih =>
    obtain ⟨a, b⟩ := kv
    by_cases ha : a = k
    · subst ha; simp [lookupA_cons] at h
    · have hb : (a == k) = false := by simpa using ha
      rw [lookupA_cons, hb] at h
      simp only [Bool.false_eq_true, if_false] at h
      cases hp : p (a, b)
      · simp [List.filter_cons, hp, ih h]
      · simp [List.filter_cons, hp, lookupA_cons, hb, ih h]

/-- A present key occurs among the stored keys. -/
theorem mem_keys_of_lookupA {α β : Type} [BEq α] [LawfulBEq α] (l : List (α × β)) (k : α) (v : β)
    (h : lookupA l k = some v) : k ∈ l.map (·.1) := by
  induction l with
  | nil => simp [lookupA] at h
  | cons kv l ih =>
    obtain ⟨a, b⟩ := kv
    by_cases ha : a = k
    · subst ha; simp
    · have hb : (a == k) = false := by simpa using ha
      rw [lookupA_cons, hb] at h
      simp only [Bool.false_eq_true, if_false] at h
      simp [ih h]

/-- C9 (amended): `clear_permit(p)` removes the status, connection and
history keys of `p` and every stored key carrying `p`'s plan-key prefix,
and leaves every other key unchanged.  (Keys of a different permit are
untouched exactly when they do not collide with those prefixes.) -/
theorem c9_clear_permit_amended (st : RedisState) (permit_id : String) :
    rGet (clearPermit st permit_id) (statusKey permit_id) = none ∧
    rGet (clearPermit st permit_id) (connectionKey permit_id) = none ∧
    rGet (clearPermit st permit_id) (historyKey permit_id) = none ∧
    (∀ k, strPfx (planKeyPfx permit_id) k = true →
      rGet (clearPermit st permit_id) k = none) ∧
    (∀ k, k ≠ statusKey permit_id → k ≠ connectionKey permit_id →
      k ≠ historyKey permit_id → strPfx (planKeyPfx permit_id) k = false →
      rGet (clearPermit st permit_id) k = rGet st k) := by
  unfold clearPermit rGet
  set keys := [statusKey permit_id, connectionKey permit_id, historyKey permit_id]
    ++ (st.map (·.1)).filter (fun k => strPfx (planKeyPfx permit_id) k) with hkeys
  refine ⟨?_, ?_, ?_, ?_, ?_⟩
  · exact lookupA_filter_false _ _ (fun v => by simp [hkeys]) st
  · exact lookupA_filter_false _ _ (fun v => by simp [hkeys]) st
  · exact lookupA_filter_false _ _ (fun v => by simp [hkeys]) st
  · intro k hk
    cases hl : lookupA st k with
    | none => exact lookupA_filter_of_none _ _ _ hl
    | some v =>
      have hmem : k ∈ st.map (·.1) := mem_keys_of_lookupA st k v hl
      refine lookupA_filter_false _ _ (fun w => ?_) st
      have : k ∈ keys := by
        rw [hkeys]
        exact List.mem_append_right _ (List.mem_filter.mpr ⟨hmem, by simp [hk]⟩)
      simp [this]
  · intro k h1 h2 h3 h4
    refine lookupA_filter_true _ _ (fun v => ?_) st
    have : k ∉ keys := by
      rw [hkeys]
      intro hmem
      rcases List.mem_append.mp hmem with hin | hin
      · simp at hin
        rcases hin with h | h | h
        · exact h1 h
        · exact h2 h
        · exact h3 h
      · have := (List.mem_filter.mp hin).2
        simp [h4] at this
    simp [this]

/-- A store holding the status key of permit `a:plan:x`, which collides
with permit `a`'s plan-key prefix. -/
def c9Store : RedisState :=
  [("permit:a:status", .rstr "INGRESS"),
   ("permit:a:plan:x:status", .rstr "RUNNING")]

/-- C9 counterexample: `clear_permit("a")` also deletes the status key of
the distinct permit `a:plan:x`, because that key matches the plan-key scan
pattern of `a`; so clearing one permit does not leave every other
permit's keys unchanged. -/
theorem c9_counterexample :
    rGet c9Store (statusKey "a:plan:x") = some (.rstr "RUNNING") ∧
    rGet (clearPermit c9Store "a") (statusKey "a:plan:x") = none ∧
    ("a:plan:x" : String) ≠ "a" := by decide

/-- C7: the ingress volume rule.  With a (shape-correct) `data_holders`
list in the payload: one `uploads-{id}` volume per holder mounted at
`/uploads/{id}`, sized by the holder's `size`, else the payload's
`uploads_volume_size`, else `20Gi`; with no holders, a single `uploads`
volume at `/uploads` sized `uploads_volume_size` or `20Gi`. -/
theorem c7_ingress_volume_rule (payload : JVal) (hs : List JVal)
    (h : jGetD payload "data_holders" (.jArr []) = .jArr hs) :
    (hs = [] →
      ingressVolumeFactory payload =
        [{ name := .jStr "uploads"
           storage_class := jGetD payload "uploads_storage_class" (.jStr "spe-ceph-rbd")
           size := jGetD payload "uploads_volume_size" (.jStr "20Gi")
           access_modes := .jArr [.jStr "ReadWriteOnce"]
           read_only := .jBool false
           mount_path := .jStr "/uploads" }]) ∧
    (hs ≠ [] →
      ingressVolumeFactory payload = hs.map (fun holder =>
        { name := .jStr ("uploads-" ++ pyStr (jGetD holder "id" (.jStr "dh")))
          storage_class := jGetD holder "storage_class" (.jStr "spe-ceph-rbd")
          size := jGetD holder "size" (jGetD payload "uploads_volume_size" (.jStr "20Gi"))
          access_modes := .jArr [.jStr "ReadWriteOnce"]
          read_only := .jBool false
          mount_path := .jStr ("/uploads/" ++ pyStr (jGetD holder "id" (.jStr "dh"))) })) := by
  constructor
  · intro he
    subst he
    simp [ingressVolumeFactory, h, jTruthy]
  · intro hne
    have ht : jTruthy (JVal.jArr hs) = true := by
      simp [jTruthy, List.isEmpty_iff, hne]
    simp [ingressVolumeFactory, h, ht]

/-- C7 witness: the rule evaluated on the scenario-S1 payload. -/
theorem c7_ingress_volume_rule_witness :
    ingressVolumeFactory (.jObj [("data_holders", .jArr [.jObj [("id", .jStr "dh1")]])]) =
      [{ name := .jStr "uploads-dh1"
         storage_class := .jStr "spe-ceph-rbd"
         size := .jStr "20Gi"
         access_modes := .jArr [.jStr "ReadWriteOnce"]
         read_only := .jBool false
         mount_path := .jStr "/uploads/dh1" }] := by
  have h := (c7_ingress_volume_rule
    (.jObj [("data_holders", .jArr [.jObj [("id", .jStr "dh1")]])])
    [.jObj [("id", .jStr "dh1")]] (by rfl)).2 (by simp)
  simpa using h

/-- `str(2000)`. -/
theorem pyStr_2000 : pyStr (.jInt 2000) = "2000" := rfl

/-- Characterization of a successful user resolution: the returned record
is built from the resolved user payload exactly as the source does. -/
theorem resolveWorkspaceUser_ok (permit_id : String) (wt : WorkspaceType)
    (payload workspace_payload : JVal) (require_user : Bool) (u : WorkspaceUser)
    (h : resolveWorkspaceUser permit_id wt payload workspace_payload require_user = .ok u) :
    u = { username :=
            if jTruthy (jGetD (resolvedUserPayload payload workspace_payload) "username" .jNull)
              then jGetD (resolvedUserPayload payload workspace_payload) "username" .jNull
              else .jStr ("user-" ++ permit_id)
          uid := .jStr (pyStr
            (if ((jGet (resolvedUserPayload payload workspace_payload) "uid").getD
                  ((jGet (resolvedUserPayload payload workspace_payload) "id").getD .jNull)).isNull
              then .jInt 2000
              else (jGet (resolvedUserPayload payload workspace_payload) "uid").getD
                    ((jGet (resolvedUserPayload payload workspace_payload) "id").getD .jNull)))
          gid := .jStr (pyStr
            (if ((jGet (resolvedUserPayload payload workspace_payload) "gid").getD
                  ((jGet (resolvedUserPayload payload workspace_payload) "uid").getD
                    ((jGet (resolvedUserPayload payload workspace_payload) "id").getD .jNull))).isNull
              then .jInt 2000
              else (jGet (resolvedUserPayload payload workspace_payload) "gid").getD
                    ((jGet (resolvedUserPayload payload workspace_payload) "uid").getD
                      ((jGet (resolvedUserPayload payload workspace_payload) "id").getD .jNull)))) } := by
  unfold resolveWorkspaceUser at h
  dsimp only at h
  split at h
  · exact Except.noConfusion h
  · split at h
    · exact Except.noConfusion h
    · injection h with h2
      subst h2
      rfl

/-- C6 (amended): user resolution.  Over the resolved user payload
(`workspace.user`, else `assignedUser`, else `user`): when a user is
required, a missing (falsy) username or a missing uid (after the `id`
fallback) fails the build with a `ValueError`; for a stage that does not
require a user (INGRESS) a missing username defaults to
`user-{permit_id}` and resolution always succeeds; `uid` defaults to
`"2000"` when absent and `gid` to the uid when present, else `"2000"`;
`uid` and `gid` are always strings, while the username is stored exactly
as supplied (a string only when the payload supplies a string or the
default applies). -/
theorem c6_user_resolution_amended (permit_id : String) (wt : WorkspaceType)
    (payload workspace_payload : JVal) (require_user : Bool) :
    (require_user = true →
      jTruthy (jGetD (resolvedUserPayload payload workspace_payload) "username" .jNull) = false →
      resolveWorkspaceUser permit_id wt payload workspace_payload require_user =
        .error ⟨"Permit event missing assigned user for " ++ wt.value ++ " workspace",
                "ValueError"⟩) ∧
    (require_user = true →
      jTruthy (jGetD (resolvedUserPayload payload workspace_payload) "username" .jNull) = true →
      ((jGet (resolvedUserPayload payload workspace_payload) "uid").getD
        ((jGet (resolvedUserPayload payload workspace_payload) "id").getD .jNull)).isNull = true →
      resolveWorkspaceUser permit_id wt payload workspace_payload require_user =
        .error ⟨"Permit event missing user identifier for " ++ wt.value ++ " workspace",
                "ValueError"⟩) ∧
    (require_user = false →
      jTruthy (jGetD (resolvedUserPayload payload workspace_payload) "username" .jNull) = false →
      ∃ u, resolveWorkspaceUser permit_id wt payload workspace_payload require_user = .ok u ∧
        u.username = .jStr ("user-" ++ permit_id)) ∧
    (∀ u, resolveWorkspaceUser permit_id wt payload workspace_payload require_user = .ok u →
      u.uid.isStr = true ∧ u.gid.isStr = true) ∧
    (∀ u, resolveWorkspaceUser permit_id wt payload workspace_payload require_user = .ok u →
      ((jGet (resolvedUserPayload payload workspace_payload) "uid").getD
        ((jGet (resolvedUserPayload payload workspace_payload) "id").getD .jNull)).isNull = true →
      u.uid = .jStr "2000" ∧
      (jGet (resolvedUserPayload payload workspace_payload) "gid" = none → u.gid = .jStr "2000")) ∧
    (∀ u v, resolveWorkspaceUser permit_id wt payload workspace_payload require_user = .ok u →
      (jGet (resolvedUserPayload payload workspace_payload) "uid").getD
        ((jGet (resolvedUserPayload payload workspace_payload) "id").getD .jNull) = v →
      v.isNull = false →
      jGet (resolvedUserPayload payload workspace_payload) "gid" = none →
      u.uid = .jStr (pyStr v) ∧ u.gid = u.uid) ∧
    (∀ u s, resolveWorkspaceUser permit_id wt payload workspace_payload require_user = .ok u →
      jGetD (resolvedUserPayload payload workspace_payload) "username" .jNull = .jStr s →
      s ≠ "" →
      u.username = .jStr s) := by
  set up := resolvedUserPayload payload workspace_payload with hup
  set username := jGetD up "username" .jNull with huser
  set raw_uid := (jGet up "uid").getD ((jGet up "id").getD .jNull) with hraw
  refine ⟨?_, ?_, ?_, ?_, ?_, ?_, ?_⟩
  · intro hr ht
    simp [resolveWorkspaceUser, ← hup, ← huser, ht, hr]
  · intro hr ht hn
    simp [resolveWorkspaceUser, ← hup, ← huser, ← hraw, ht, hn, hr]
  · intro hr ht
    simp [resolveWorkspaceUser, ← hup, ← huser, ← hraw, ht, hr]
  · intro u hu
    have hc := resolveWorkspaceUser_ok permit_id wt payload workspace_payload require_user u hu
    subst hc
    exact ⟨rfl, rfl⟩
  · intro u hu hn
    have hc := resolveWorkspaceUser_ok permit_id wt payload workspace_payload require_user u hu
    subst hc
    refine ⟨by simp [← hup, ← hraw, hn, pyStr_2000],
      fun hg => by simp [← hup, ← hraw, hg, hn, pyStr_2000]⟩
  · intro u v hu hv hn hg
    subst hv
    have hc := resolveWorkspaceUser_ok permit_id wt payload workspace_payload require_user u hu
    subst hc
    constructor <;> simp [← hup, ← hraw, hg, hn]
  · intro u s hu hs hne
    have ht : jTruthy username = true := by
      rw [hs]; simpa [jTruthy] using hne
    have hc := resolveWorkspaceUser_ok permit_id wt payload workspace_payload require_user u hu
    subst hc
    simp [← hup, ← huser, ht, hs, jTruthy, hne]

/-- C6 counterexample: a payload whose username is the integer `7` passes a
required-user build (uid present), and the stored username is the integer
itself - not a string - refuting "username, uid, and gid are all
strings". -/
theorem c6_counterexample :
    resolveWorkspaceUser "p1" .SETUP
      (.jObj [("assignedUser", .jObj [("username", .jInt 7), ("uid", .jInt 1)])])
      (.jObj []) true
      = .ok { username := .jInt 7, uid := .jStr "1", gid := .jStr "1" } ∧
    JVal.isStr (.jInt 7) = false :=
  ⟨rfl, rfl⟩

/-- C6 witness: the amended theorem applied to a missing-user SETUP build
and to a username-less INGRESS build. -/
theorem c6_user_resolution_amended_witness :
    resolveWorkspaceUser "p1" .SETUP (.jObj []) (.jObj []) true =
      .error ⟨"Permit event missing assigned user for setup workspace", "ValueError"⟩ ∧
    (∃ u, resolveWorkspaceUser "p1" .INGRESS (.jObj []) (.jObj []) false = .ok u ∧
      u.username = .jStr "user-p1") :=
  ⟨(c6_user_resolution_amended "p1" .SETUP (.jObj []) (.jObj []) true).1 rfl (by decide),
   (c6_user_resolution_amended "p1" .INGRESS (.jObj []) (.jObj []) false).2.2.1 rfl (by decide)⟩

/-- A well-formed plan carrying non-empty `exports`. -/
def c3Plan : WorkspacePlan :=
  { stack_name := .jStr "permit-p1-analysis"
    workspace_spec :=
      { name := .jStr "p1-analysis", nspace := .jStr "permit-p1"
        container := { image := .jStr "ghcr.io/spe/workspace-analysis:stable"
                       resources := .jObj [], env := [("INTERNET_ACCESS", .jStr "disabled")]
                       command := .jNull, args := .jNull, ports := .jArr [.jInt 3389] }
        user := { username := .jStr "alice", uid := .jStr "1000", gid := .jStr "1000" }
        volumes := [{ name := .jStr "prepared", storage_class := .jStr "spe-ceph-rbd"
                      size := .jStr "200Gi", access_modes := .jArr [.jStr "ReadOnlyMany"]
                      read_only := .jBool true, mount_path := .jStr "/prepared_data" }]
        service_account_name := .jNull
        replicas := .jInt 1
        annotations := .jObj [] }
    network := { profile := .ANALYSIS }
    connection_secret := .jNull
    connection_info := .jObj [("protocol", .jStr "rdp")]
    exports := [("connection", .jStr "x")]
    refresh := true }

/-- C3 counterexample: the round trip is not the identity on a plan with
non-empty `exports` - `_plan_to_dict` never serializes them and
`_plan_from_dict` restores the empty default. -/
theorem c3_counterexample :
    planFromDict (planToDict c3Plan) ≠ some c3Plan ∧
    c3Plan.exports = [("connection", .jStr "x")] := by
  decide

/-- Does the trace publish an audit event for this permit, action and
outcome? -/
def isAuditOf (permitId action outcome : String) : Effect → Bool
  | .auditFx p a o _ => p == permitId && a == action && o == outcome
  | _ => false

/-- Trace query: some audit event with this permit, action and outcome. -/
def hasAudit (fx : List Effect) (permitId action outcome : String) : Bool :=
  fx.any (isAuditOf permitId action outcome)

/-- Is the effect a bus publication on this routing key? -/
def isPublishOn (routing_key : String) : Effect → Bool
  | .publishFx rk _ => rk == routing_key
  | _ => false

/-- Trace query: some publication on this routing key. -/
def hasPublish (fx : List Effect) (routing_key : String) : Bool :=
  fx.any (isPublishOn routing_key)

/-- Deleting a plan key removes it. -/
theorem smGetPlan_smDeletePlan (st : StoreState) (permit_id wtv : String) :
    smGetPlan (smDeletePlan st permit_id wtv) permit_id wtv = none := by
  unfold smGetPlan smDeletePlan delA
  exact lookupA_filter_false _ _ (fun v => by simp) st.plans

/-- C5: a destroy whose stack is not found succeeds; and after every
successful destroy (driver-disabled and not-found cases included) the
stored plan for the `(permit, stage)` is absent and a SUCCESS audit event
for `DESTROY_WORKSPACE` was published. -/
theorem c5_destroy_success (cfg : AppConfig) (D : Driver) (permit_id : String)
    (wt : WorkspaceType) (st : StoreState) :
    (cfg.disable_pulumi = false →
      D.selectFound (.jStr (stackNameStr cfg permit_id wt)) = false →
      (destroyStack cfg D permit_id wt st).res = true) ∧
    ((destroyStack cfg D permit_id wt st).res = true →
      smGetPlan (destroyStack cfg D permit_id wt st).st permit_id wt.value = none ∧
      hasAudit (destroyStack cfg D permit_id wt st).fx
        permit_id "DESTROY_WORKSPACE" "SUCCESS" = true) := by
  constructor
  · intro hdis hnf
    simp [destroyStack, hdis, hnf]
  · intro hres
    by_cases hdis : cfg.disable_pulumi
    · cases hst : smGetPlan st permit_id wt.value <;>
        simp [destroyStack, hdis, hst, hasAudit, isAuditOf, auditEffect,
          smGetPlan_smDeletePlan, List.any_cons]
    · simp only [Bool.not_eq_true] at hdis
      by_cases hnf : D.selectFound (.jStr (stackNameStr cfg permit_id wt)) = true
      · cases hde : D.destroyRes (.jStr (stackNameStr cfg permit_id wt)) with
        | some e =>
          exfalso
          simp [destroyStack, hdis, hnf, hde] at hres
        | none =>
          cases hst : smGetPlan st permit_id wt.value <;>
            simp [destroyStack, hdis, hnf, hde, hst, hasAudit, isAuditOf, auditEffect,
              smGetPlan_smDeletePlan, List.any_cons]
      · simp only [Bool.not_eq_true] at hnf
        cases hst : smGetPlan st permit_id wt.value <;>
          simp [destroyStack, hdis, hnf, hst, hasAudit, isAuditOf, auditEffect,
            smGetPlan_smDeletePlan, List.any_cons]

/-- C5 witness: a not-found destroy on an empty store with the driver
enabled. -/
theorem c5_destroy_success_witness :
    (destroyStack
      { pulumi := { project_name := "spe" }, disable_pulumi := false }
      { selectFound := fun _ => false, destroyRes := fun _ => none,
        applyRes := fun _ => .ok [] }
      "p1" .INGRESS {}).res = true ∧
    smGetPlan (destroyStack
      { pulumi := { project_name := "spe" }, disable_pulumi := false }
      { selectFound := fun _ => false, destroyRes := fun _ => none,
        applyRes := fun _ => .ok [] }
      "p1" .INGRESS {}).st "p1" "ingress" = none := by
  have h := c5_destroy_success
    { pulumi := { project_name := "spe" }, disable_pulumi := false }
    { selectFound := fun _ => false, destroyRes := fun _ => none,
      applyRes := fun _ => .ok [] }
    "p1" .INGRESS {}
  have h1 := h.1 rfl rfl
  exact ⟨h1, (h.2 h1).1⟩

/-- Looking up the key just written. -/
theorem lookupA_setA_self {α β : Type} [BEq α] [LawfulBEq α]
    (l : List (α × β)) (k : α) (v : β) :
    lookupA (setA l k v) k = some v := by
  simp [lookupA, setA, List.find?]

/-- C4: in a provision whose driver apply fails, the permit status is set
to PROVISIONING_FAILED, a failure event goes out on
`permit.workspace.provisioning_failed`, a FAILURE audit event is
published, and the stored plan for the `(permit, stage)` is unchanged
(nothing is written). -/
theorem c4_apply_failure (cfg : AppConfig) (D : Driver) (event : PermitEvent)
    (wt : WorkspaceType) (plan : WorkspacePlan) (e : PyErr) (st : StoreState)
    (hdis : cfg.disable_pulumi = false)
    (hbuild : buildPlanFromConfig cfg event wt = .ok plan)
    (happly : D.applyRes plan.stack_name = .error e) :
    smGetStatus (provisionWorkspace cfg D event wt st).st event.permit_id =
      some "PROVISIONING_FAILED" ∧
    hasPublish (provisionWorkspace cfg D event wt st).fx
      "permit.workspace.provisioning_failed" = true ∧
    hasAudit (provisionWorkspace cfg D event wt st).fx
      event.permit_id "PROVISION_WORKSPACE" "FAILURE" = true ∧
    smGetPlan (provisionWorkspace cfg D event wt st).st event.permit_id wt.value =
      smGetPlan st event.permit_id wt.value := by
  unfold provisionWorkspace
  rw [hbuild]
  dsimp only
  unfold applyAndRecord
  rw [hdis]
  dsimp only
  unfold applyStack
  rw [happly]
  dsimp only
  unfold handleOperationFailure
  dsimp only
  refine ⟨?_, ?_, ?_, ?_⟩
  · simp [smGetStatus, smSetStatus, lookupA_setA_self, WorkspaceLifecycleStatus.value]
  · simp [hasPublish, isPublishOn]
  · simp [hasAudit, isAuditOf, auditEffect]
  · simp [smGetPlan, smSetStatus]

/-- A test configuration with the driver enabled. -/
def cfgTest : AppConfig := { pulumi := { project_name := "spe" }, disable_pulumi := false }

/-- A driver on which every apply fails. -/
def driverApplyFails : Driver :=
  { selectFound := fun _ => true, destroyRes := fun _ => none,
    applyRes := fun _ => .error ⟨"stack update failed", "CommandError"⟩ }

/-- The INGRESS plan built from an empty payload under `cfgTest`. -/
def c4Plan : WorkspacePlan :=
  { stack_name := .jStr "permit-p1-ingress"
    workspace_spec :=
      { name := .jStr "p1-ingress", nspace := .jStr "permit-p1"
        container := { image := .jStr "ghcr.io/spe/workspace-ingress:stable"
                       resources := .jObj [], env := [("SERVICE_MODE", .jStr "sftp")]
                       command := .jNull, args := .jNull, ports := .jArr [.jInt 3389] }
        user := { username := .jStr "user-p1", uid := .jStr "2000", gid := .jStr "2000" }
        volumes := [{ name := .jStr "uploads", storage_class := .jStr "spe-ceph-rbd"
                      size := .jStr "20Gi", access_modes := .jArr [.jStr "ReadWriteOnce"]
                      read_only := .jBool false, mount_path := .jStr "/uploads" }]
        service_account_name := .jNull
        replicas := .jInt 1
        annotations := .jObj [] }
    network := { profile := .INGRESS }
    connection_secret := .jObj [("username", .jStr "permit-p1"),
                                ("password", .jStr "generated-secret")]
    connection_info := .jObj [("protocol", .jStr "sftp"),
                              ("host", .jStr "p1-ingress.permit-p1.svc.cluster.local"),
                              ("port", .jInt 22),
                              ("username", .jStr "permit-p1"),
                              ("password", .jStr "generated-secret")] }

/-- C4 witness: a failing ingress provisioning on an empty store. -/
theorem c4_apply_failure_witness :
    smGetStatus (provisionWorkspace cfgTest driverApplyFails
      { type := .PERMIT_INGRESS_INITIATED, permit_id := "p1", payload := .jObj [] }
      .INGRESS {}).st "p1" = some "PROVISIONING_FAILED" ∧
    smGetPlan (provisionWorkspace cfgTest driverApplyFails
      { type := .PERMIT_INGRESS_INITIATED, permit_id := "p1", payload := .jObj [] }
      .INGRESS {}).st "p1" "ingress" = none := by
  have h := c4_apply_failure cfgTest driverApplyFails
    { type := .PERMIT_INGRESS_INITIATED, permit_id := "p1", payload := .jObj [] }
    .INGRESS c4Plan ⟨"stack update failed", "CommandError"⟩ {} rfl rfl rfl
  exact ⟨h.1, h.2.2.2⟩

/-- The `network.profile` value of a stored plan document. -/
def planProfileVal (pd : JVal) : Option JVal := jGet (jGetD pd "network" (.jObj [])) "profile"

/-- The `workspace.replicas` value of a stored plan document. -/
def planReplicasVal (pd : JVal) : Option JVal := jGet (jGetD pd "workspace" (.jObj [])) "replicas"

/-- A driver on which every operation succeeds. -/
def driverOkAll : Driver :=
  { selectFound := fun _ => true, destroyRes := fun _ => none, applyRes := fun _ => .ok [] }

/-- A provisioned ANALYSIS plan (replicas 1, profile `analysis`). -/
def c2Plan : WorkspacePlan :=
  { stack_name := .jStr "permit-p1-analysis"
    workspace_spec :=
      { name := .jStr "p1-analysis", nspace := .jStr "permit-p1"
        container := { image := .jStr "ghcr.io/spe/workspace-analysis:stable"
                       resources := .jObj [], env := [("INTERNET_ACCESS", .jStr "disabled")]
                       command := .jNull, args := .jNull, ports := .jArr [.jInt 3389] }
        user := { username := .jStr "alice", uid := .jStr "1000", gid := .jStr "1000" }
        volumes := []
        service_account_name := .jNull
        replicas := .jInt 1
        annotations := .jObj [] }
    network := { profile := .ANALYSIS }
    connection_secret := .jNull
    connection_info := .jObj [("protocol", .jStr "rdp")] }

/-- Store holding the stored ANALYSIS plan of permit `p1`. -/
def c2Store : StoreState := { plans := [(("p1", "analysis"), planToDict c2Plan)] }

/-- State after handling `stop_requested` (scale to 0). -/
def c2AfterStop : StoreState := (stopWorkspace cfgTest driverOkAll "p1" c2Store).st

/-- State after then handling `start_requested` (scale to 1). -/
def c2AfterStart : StoreState := (startWorkspace cfgTest driverOkAll "p1" c2AfterStop).st

/-- C2 (code bug): starting from a provisioned ANALYSIS plan, a stop
persists the plan with profile `stopped` and sets STOPPED; the following
start succeeds, persists replicas 1 and sets RUNNING - but the persisted
`network.profile` remains `stopped` instead of being restored to
`analysis`: the restore in `_scale_stack` writes back the profile loaded
from the stored plan, which a prior scale-to-0 already persisted as
STOPPED (for `replicas > 0` the profile was never changed, so the restore
is a no-op). -/
theorem c2_start_keeps_stopped_profile :
    smGetStatus c2AfterStop "p1" = some "STOPPED" ∧
    (smGetPlan c2AfterStop "p1" "analysis").bind planProfileVal = some (.jStr "stopped") ∧
    smGetStatus c2AfterStart "p1" = some "RUNNING" ∧
    (smGetPlan c2AfterStart "p1" "analysis").bind planReplicasVal = some (.jInt 1) ∧
    (smGetPlan c2AfterStart "p1" "analysis").bind planProfileVal = some (.jStr "stopped") ∧
    (JVal.jStr "stopped" ≠ .jStr NetworkPolicyProfile.ANALYSIS.value) :=
  ⟨rfl, rfl, rfl, rfl, rfl, by decide⟩

/-- C10 (amended): a `permit.status.updated` delivery whose status is
absent/falsy or unrecognized leaves the store untouched, performs no
driver call and publishes nothing; it is acknowledged when the payload
carries a (truthy) permit id and negatively acknowledged without requeue
otherwise. -/
theorem c10_unrecognized_status (cfg : AppConfig) (D : Driver) (payload : JVal)
    (headers : List (String × JVal)) (st : StoreState)
    (htype : pyOr (jGetD payload "type" .jNull) ((lookupA headers "x-event-type").getD .jNull)
      = .jStr "permit.status.updated")
    (hstatus : jTruthy (jGetD payload "status" .jNull) = false ∨
      parsePermitStatus (jGetD payload "status" .jNull) = none) :
    (jTruthy (pyOr (jGetD payload "permitId" .jNull) (jGetD payload "permit_id" .jNull)) = true →
      consumeOne cfg D (some payload) headers st = (st, [], .ack)) ∧
    (jTruthy (pyOr (jGetD payload "permitId" .jNull) (jGetD payload "permit_id" .jNull)) = false →
      consumeOne cfg D (some payload) headers st = (st, [], .nack)) := by
  have hpn : (if jTruthy (jGetD payload "status" .jNull) = true
      then parsePermitStatus (jGetD payload "status" .jNull) else none) = none := by
    rcases hstatus with h | h
    · simp [h]
    · cases jTruthy (jGetD payload "status" .jNull) <;> simp [h]
  have htt : jTruthy (.jStr "permit.status.updated") = true := rfl
  have hpt : parseEventType (.jStr "permit.status.updated") = some .PERMIT_STATUS_UPDATED := rfl
  constructor <;> intro hp <;>
    simp [consumeOne, parseEvent, htype, htt, hpt, hp, hpn, handleEvent]

/-- C10 counterexample: a `permit.status.updated` delivery with no status
and no permit id changes nothing and publishes nothing, but it is
negatively acknowledged, not acknowledged. -/
theorem c10_counterexample :
    consumeOne cfgTest driverOkAll
      (some (.jObj [("type", .jStr "permit.status.updated")])) [] {} =
      ({}, [], .nack) ∧
    AckResult.nack ≠ AckResult.ack := by
  decide

/-- C10 witness: an unknown status with a permit id present is dropped and
acknowledged. -/
theorem c10_unrecognized_status_witness :
    consumeOne cfgTest driverOkAll
      (some (.jObj [("type", .jStr "permit.status.updated"),
                    ("permitId", .jStr "p1"),
                    ("status", .jStr "TOTALLY_UNKNOWN")])) [] {} =
      ({}, [], .ack) :=
  (c10_unrecognized_status cfgTest driverOkAll
    (.jObj [("type", .jStr "permit.status.updated"),
            ("permitId", .jStr "p1"),
            ("status", .jStr "TOTALLY_UNKNOWN")]) [] {}
    (by decide) (.inr (by decide))).1 (by decide)

/-- C9 witness: clearing a permit with no keys leaves another permit's
status key in place; its own keys read as absent. -/
theorem c9_clear_permit_amended_witness :
    rGet (clearPermit c9Store "p9") (statusKey "p9") = none ∧
    rGet (clearPermit c9Store "p9") "permit:p9:plan:ingress" = none ∧
    rGet (clearPermit c9Store "p9") "permit:a:status" = rGet c9Store "permit:a:status" :=
  have h := c9_clear_permit_amended c9Store "p9"
  ⟨h.1, h.2.2.2.1 "permit:p9:plan:ingress" (by decide),
   h.2.2.2.2 "permit:a:status" (by decide) (by decide) (by decide) (by decide)⟩

/-- Setting one key leaves every other key's lookup unchanged. -/
theorem lookupA_setA_other {α β : Type} [BEq α] [LawfulBEq α]
    (l : List (α × β)) (k k2 : α) (v : β) (h : k2 ≠ k) :
    lookupA (setA l k v) k2 = lookupA l k2 := by
  have hb : (k == k2) = false := by simpa using fun he => h he.symm
  rw [setA, lookupA_cons, hb]
  simp only [Bool.false_eq_true, if_false]
  exact lookupA_filter_true _ _ (fun w => by simpa using h) l

/-- Deleting one key leaves every other key's lookup unchanged. -/
theorem lookupA_delA_other {α β : Type} [BEq α] [LawfulBEq α]
    (l : List (α × β)) (k k2 : α) (h : k2 ≠ k) :
    lookupA (delA l k) k2 = lookupA l k2 :=
  lookupA_filter_true _ _ (fun w => by simpa using h) l

/-- `WorkspaceType.value` is injective. -/
theorem WorkspaceType.value_inj : ∀ a b : WorkspaceType, a.value = b.value → a = b := by
  intro a b h
  cases a <;> cases b <;> simp_all [WorkspaceType.value]

/-- C8's invariant: every plan stored for a `(permit, stage)` carries the
canonical stack name computed from the configuration. -/
def planNameInv (cfg : AppConfig) (st : StoreState) : Prop :=
  ∀ pid (wt : WorkspaceType) pd, smGetPlan st pid wt.value = some pd →
    jGet pd "stack_name" = some (.jStr (stackNameStr cfg pid wt))

/-- The serialized plan document names the plan's stack. -/
theorem jGet_planToDict_stack_name (p : WorkspacePlan) :
    jGet (planToDict p) "stack_name" = some p.stack_name := rfl

/-- A plan produced by the builder carries the canonical stack name. -/
theorem buildPlanFromConfig_stack_name (cfg : AppConfig) (event : PermitEvent)
    (wt : WorkspaceType) (plan : WorkspacePlan)
    (h : buildPlanFromConfig cfg event wt = .ok plan) :
    plan.stack_name = .jStr (stackNameStr cfg event.permit_id wt) := by
  unfold buildPlanFromConfig at h
  dsimp only at h
  split at h
  · exact Except.noConfusion h
  · injection h with h2
    subst h2
    rfl

/-- Status writes do not touch plans. -/
theorem planInv_smSetStatus (cfg : AppConfig) (st : StoreState) (pid s : String)
    (hinv : planNameInv cfg st) : planNameInv cfg (smSetStatus st pid s) := hinv

/-- Connection writes do not touch plans. -/
theorem planInv_smSetConnection (cfg : AppConfig) (st : StoreState) (pid : String)
    (c : JVal) (hinv : planNameInv cfg st) :
    planNameInv cfg (smSetConnection st pid c) := hinv

/-- Writing a canonically-named plan preserves the invariant. -/
theorem planInv_smSetPlan (cfg : AppConfig) (st : StoreState) (pid : String)
    (wt : WorkspaceType) (pd : JVal) (hinv : planNameInv cfg st)
    (hpd : jGet pd "stack_name" = some (.jStr (stackNameStr cfg pid wt))) :
    planNameInv cfg (smSetPlan st pid wt.value pd) := by
  intro p w pd2 h
  by_cases hk : (p, w.value) = (pid, wt.value)
  · obtain ⟨hp, hw⟩ := Prod.mk.injEq .. ▸ hk
    have hwt : w = wt := WorkspaceType.value_inj w wt hw
    subst hp hwt
    rw [smGetPlan, smSetPlan, lookupA_setA_self] at h
    cases h
    exact hpd
  · rw [smGetPlan, smSetPlan, lookupA_setA_other _ _ _ _ hk] at h
    exact hinv p w pd2 h

/-- Deleting a plan preserves the invariant. -/
theorem planInv_smDeletePlan (cfg : AppConfig) (st : StoreState) (pid wtv : String)
    (hinv : planNameInv cfg st) : planNameInv cfg (smDeletePlan st pid wtv) := by
  intro p w pd2 h
  by_cases hk : (p, w.value) = (pid, wtv)
  · rw [smGetPlan] at h
    dsimp only [smDeletePlan, delA] at h
    rw [hk] at h
    rw [lookupA_filter_false _ _ (fun v => by simp) st.plans] at h
    exact Option.noConfusion h
  · rw [smGetPlan, smDeletePlan, lookupA_delA_other _ _ _ hk] at h
    exact hinv p w pd2 h

/-- Clearing a permit preserves the invariant. -/
theorem planInv_smClearPermit (cfg : AppConfig) (st : StoreState) (pid : String)
    (hinv : planNameInv cfg st) : planNameInv cfg (smClearPermit st pid) := by
  intro p w pd2 h
  rw [smGetPlan, smClearPermit] at h
  by_cases hp : p = pid
  · subst hp
    have : lookupA (st.plans.filter (fun kv => !(kv.1.1 == p))) (p, w.value) = none :=
      lookupA_filter_false _ _ (fun v => by simp) st.plans
    rw [this] at h
    exact Option.noConfusion h
  · rw [lookupA_filter_true _ _ (fun v => by simpa using hp) st.plans] at h
    exact hinv p w pd2 h

/-- The plan returned by a successful apply keeps its stack name (only
`exports` are merged). -/
theorem applyStack_res_stack_name (cfg : AppConfig) (D : Driver) (pid : String)
    (wt : WorkspaceType) (plan : WorkspacePlan) (action : String) (st : StoreState)
    (plan2 : WorkspacePlan)
    (h : (applyStack cfg D pid wt plan action st).res = some plan2) :
    plan2.stack_name = plan.stack_name := by
  unfold applyStack at h
  split at h <;> dsimp only at h
  · exact Option.noConfusion h
  · injection h with h2
    subst h2
    rfl

/-- The apply step never touches plans in the store. -/
theorem planInv_applyStack (cfg : AppConfig) (D : Driver) (pid : String)
    (wt : WorkspaceType) (plan : WorkspacePlan) (action : String) (st : StoreState)
    (hinv : planNameInv cfg st) :
    planNameInv cfg (applyStack cfg D pid wt plan action st).st := by
  unfold applyStack
  split <;> dsimp only
  · exact hinv
  · exact hinv

/-- `_apply_and_record` preserves the invariant when the plan it is given
names the canonical stack. -/
theorem planInv_applyAndRecord (cfg : AppConfig) (D : Driver) (pid : String)
    (wt : WorkspaceType) (plan : WorkspacePlan) (action : String) (st : StoreState)
    (hinv : planNameInv cfg st)
    (hplan : plan.stack_name = .jStr (stackNameStr cfg pid wt)) :
    planNameInv cfg (applyAndRecord cfg D pid wt plan action st).st := by
  unfold applyAndRecord
  dsimp only
  split
  · -- driver disabled: record the given plan
    split <;>
      exact planInv_smSetPlan cfg _ pid wt _ hinv
        (by rw [jGet_planToDict_stack_name, hplan])
  · -- driver enabled
    split
    · exact planInv_applyStack cfg D pid wt plan action st hinv
    · next plan2 heq =>
      have hname : plan2.stack_name = .jStr (stackNameStr cfg pid wt) :=
        (applyStack_res_stack_name cfg D pid wt plan action st plan2 heq).trans hplan
      split <;>
        exact planInv_smSetPlan cfg _ pid wt _
          (planInv_applyStack cfg D pid wt plan action st hinv)
          (by rw [jGet_planToDict_stack_name, hname])

/-- Provisioning preserves the invariant: the builder stamps the canonical
stack name on every plan it produces. -/
theorem planInv_provisionWorkspace (cfg : AppConfig) (D : Driver) (event : PermitEvent)
    (wt : WorkspaceType) (st : StoreState) (hinv : planNameInv cfg st) :
    planNameInv cfg (provisionWorkspace cfg D event wt st).st := by
  unfold provisionWorkspace
  cases hb : buildPlanFromConfig cfg event wt with
  | error e => exact hinv
  | ok plan =>
    exact planInv_applyAndRecord cfg D event.permit_id wt plan "PROVISION_WORKSPACE" st hinv
      (buildPlanFromConfig_stack_name cfg event wt plan hb)

/-- Destroy only deletes plans (or reports a failure status), so the
invariant is preserved. -/
theorem planInv_destroyStack (cfg : AppConfig) (D : Driver) (pid : String)
    (wt : WorkspaceType) (st : StoreState) (hinv : planNameInv cfg st) :
    planNameInv cfg (destroyStack cfg D pid wt st).st := by
  unfold destroyStack
  dsimp only
  split
  · split <;> first
      | exact planInv_smDeletePlan cfg st pid wt.value hinv
      | exact hinv
  · split
    · split <;> first
        | exact planInv_smDeletePlan cfg st pid wt.value hinv
        | exact hinv
    · split
      · exact hinv
      · split <;> first
          | exact planInv_smDeletePlan cfg st pid wt.value hinv
          | exact hinv

/-- Scaling rewrites the stored plan with the canonical stack name, so the
invariant is preserved. -/
theorem planInv_scaleStack (cfg : AppConfig) (D : Driver) (pid : String)
    (wt : WorkspaceType) (replicas : Int) (st : StoreState) (hinv : planNameInv cfg st) :
    planNameInv cfg (scaleStack cfg D pid wt replicas st).st := by
  unfold scaleStack
  dsimp only
  split
  · exact hinv
  · split
    · exact hinv
    · next plan0 _ =>
      split
      · -- driver disabled
        exact planInv_smSetPlan cfg st pid wt _ hinv
          (by rw [jGet_planToDict_stack_name]; split <;> (try split) <;> rfl)
      · -- driver enabled
        split
        · exact planInv_applyStack cfg D pid wt _ _ st hinv
        · next plan2 heq =>
          have hname : plan2.stack_name = .jStr (stackNameStr cfg pid wt) := by
            have h0 := applyStack_res_stack_name cfg D pid wt _ _ st plan2 heq
            rw [h0]; split <;> rfl
          exact planInv_smSetPlan cfg _ pid wt _
            (planInv_applyStack cfg D pid wt _ _ st hinv)
            (by rw [jGet_planToDict_stack_name]; split <;> exact congrArg some hname)

/-- Stop preserves the invariant. -/
theorem planInv_stopWorkspace (cfg : AppConfig) (D : Driver) (pid : String)
    (st : StoreState) (hinv : planNameInv cfg st) :
    planNameInv cfg (stopWorkspace cfg D pid st).st := by
  unfold stopWorkspace
  dsimp only
  split
  · exact planInv_scaleStack cfg D pid .ANALYSIS 0 st hinv
  · split <;> exact planInv_scaleStack cfg D pid .ANALYSIS 0 st hinv

/-- Start preserves the invariant. -/
theorem planInv_startWorkspace (cfg : AppConfig) (D : Driver) (pid : String)
    (st : StoreState) (hinv : planNameInv cfg st) :
    planNameInv cfg (startWorkspace cfg D pid st).st := by
  unfold startWorkspace
  dsimp only
  split
  · exact planInv_scaleStack cfg D pid .ANALYSIS 1 st hinv
  · split <;> exact planInv_scaleStack cfg D pid .ANALYSIS 1 st hinv

/-- The destroy loop preserves the invariant. -/
theorem planInv_destroyStacks (cfg : AppConfig) (D : Driver) (pid : String)
    (wts : List WorkspaceType) (st : StoreState) (hinv : planNameInv cfg st) :
    planNameInv cfg (destroyStacks cfg D pid wts st).st := by
  induction wts generalizing st with
  | nil => exact hinv
  | cons wt rest ih => exact ih _ (planInv_destroyStack cfg D pid wt st hinv)

/-- Destroy-all preserves the invariant. -/
theorem planInv_destroyAll (cfg : AppConfig) (D : Driver) (pid : String)
    (st : StoreState) (hinv : planNameInv cfg st) :
    planNameInv cfg (destroyAll cfg D pid st).st := by
  unfold destroyAll
  dsimp only
  split <;> first
    | exact planInv_smClearPermit cfg _ pid
        (planInv_destroyStacks cfg D pid workspaceTypeList st hinv)
    | exact planInv_destroyStacks cfg D pid workspaceTypeList st hinv

/-- Every status transition preserves the invariant. -/
theorem planInv_handleStatusTransition (cfg : AppConfig) (D : Driver)
    (event : PermitEvent) (s : PermitStatus) (st : StoreState)
    (hinv : planNameInv cfg st) :
    planNameInv cfg (handleStatusTransition cfg D event s st).st := by
  cases s
  case AWAITING_INGRESS => exact hinv
  case DATA_PREPARATION_PENDING =>
    exact planInv_provisionWorkspace cfg D event .PREPROCESS _
      (planInv_destroyStack cfg D event.permit_id .INGRESS st hinv)
  case DATA_PREPARATION_REVIEW_PENDING =>
    unfold handleStatusTransition
    dsimp only
    split
    · exact planInv_scaleStack cfg D event.permit_id .PREPROCESS 0 st hinv
    · exact planInv_provisionWorkspace cfg D event .REVIEW _
        (planInv_scaleStack cfg D event.permit_id .PREPROCESS 0 st hinv)
  case DATA_PREPARATION_REWORK =>
    unfold handleStatusTransition
    dsimp only
    split <;>
      exact planInv_scaleStack cfg D event.permit_id .PREPROCESS 1 _
        (planInv_destroyStack cfg D event.permit_id .REVIEW st hinv)
  case WORKSPACE_SETUP_PENDING =>
    exact planInv_provisionWorkspace cfg D event .SETUP _
      (planInv_destroyStack cfg D event.permit_id .PREPROCESS _
        (planInv_destroyStack cfg D event.permit_id .REVIEW st hinv))
  case WORKSPACE_SETUP_REVIEW_PENDING =>
    unfold handleStatusTransition
    dsimp only
    split
    · exact planInv_scaleStack cfg D event.permit_id .SETUP 0 st hinv
    · exact planInv_provisionWorkspace cfg D event .SETUP_REVIEW _
        (planInv_scaleStack cfg D event.permit_id .SETUP 0 st hinv)
  case WORKSPACE_SETUP_REWORK =>
    unfold handleStatusTransition
    dsimp only
    split <;>
      exact planInv_scaleStack cfg D event.permit_id .SETUP 1 _
        (planInv_destroyStack cfg D event.permit_id .SETUP_REVIEW st hinv)
  case ANALYSIS_ACTIVE =>
    exact planInv_provisionWorkspace cfg D event .ANALYSIS _
      (planInv_destroyStack cfg D event.permit_id .SETUP_REVIEW st hinv)
  case ARCHIVED =>
    unfold handleStatusTransition
    dsimp only
    split <;> exact planInv_scaleStack cfg D event.permit_id .ANALYSIS 0 st hinv

/-- C8: handling any event preserves the invariant that every stored plan
for a `(permit, stage)` has `stack_name` equal to the canonical
`"{prefix}-{permit_id}-{stage}"` (org/project-qualified when an
organization is configured); in particular all states reachable from an
empty store satisfy it. -/
theorem c8_stack_name_invariant (cfg : AppConfig) (D : Driver) (event : PermitEvent)
    (st : StoreState) (hinv : planNameInv cfg st) :
    planNameInv cfg (handleEvent cfg D event st).st := by
  unfold handleEvent
  cases htype : event.type <;> cases hstatus : event.status
  · exact hinv
  · next s => exact planInv_handleStatusTransition cfg D event s st hinv
  all_goals first
    | exact planInv_provisionWorkspace cfg D event .INGRESS st hinv
    | exact planInv_stopWorkspace cfg D event.permit_id st hinv
    | exact planInv_startWorkspace cfg D event.permit_id st hinv
    | exact planInv_destroyAll cfg D event.permit_id st hinv

/-- The S1 ingress event. -/
def evIngressInit : PermitEvent :=
  { type := .PERMIT_INGRESS_INITIATED, permit_id := "p1", payload := .jObj [] }

/-- C8 witness: after provisioning INGRESS on an empty store, the stored
plan document names the canonical stack `permit-p1-ingress`. -/
theorem c8_stack_name_invariant_witness :
    smGetPlan (handleEvent cfgTest driverOkAll evIngressInit {}).st "p1" "ingress" =
      some (planToDict c4Plan) ∧
    jGet (planToDict c4Plan) "stack_name" =
      some (.jStr (stackNameStr cfgTest "p1" .INGRESS)) :=
  ⟨rfl,
   c8_stack_name_invariant cfgTest driverOkAll evIngressInit {}
     (fun _ _ _ h => Option.noConfusion h) "p1" .INGRESS (planToDict c4Plan) rfl⟩

/-- One sub-operation of a status transition, as listed in the
transition table. -/
inductive SubOp where
  | destroyOp (wt : WorkspaceType)
  | scaleOp (wt : WorkspaceType) (replicas : Int)
  | provisionOp (wt : WorkspaceType)
  | setStatusOp (s : String)
  deriving DecidableEq, Repr

/-- The transition table: the sub-operations each status triggers, in
order. -/
def plannedOps : PermitStatus → List SubOp
  | .AWAITING_INGRESS => []
  | .DATA_PREPARATION_PENDING => [.destroyOp .INGRESS, .provisionOp .PREPROCESS]
  | .DATA_PREPARATION_REVIEW_PENDING => [.scaleOp .PREPROCESS 0, .provisionOp .REVIEW]
  | .DATA_PREPARATION_REWORK =>
    [.destroyOp .REVIEW, .scaleOp .PREPROCESS 1, .setStatusOp "PREPROCESS"]
  | .WORKSPACE_SETUP_PENDING =>
    [.destroyOp .REVIEW, .destroyOp .PREPROCESS, .provisionOp .SETUP]
  | .WORKSPACE_SETUP_REVIEW_PENDING => [.scaleOp .SETUP 0, .provisionOp .SETUP_REVIEW]
  | .WORKSPACE_SETUP_REWORK =>
    [.destroyOp .SETUP_REVIEW, .scaleOp .SETUP 1, .setStatusOp "SETUP"]
  | .ANALYSIS_ACTIVE => [.destroyOp .SETUP_REVIEW, .provisionOp .ANALYSIS]
  | .ARCHIVED => [.scaleOp .ANALYSIS 0, .setStatusOp "ARCHIVED"]

/-- Run one sub-operation (only a scale can raise, on an undecodable
stored plan). -/
def runSubOp (cfg : AppConfig) (D : Driver) (event : PermitEvent) :
    SubOp → StoreState → Out (PyRes Unit)
  | .destroyOp wt, st =>
    let o := destroyStack cfg D event.permit_id wt st
    { st := o.st, fx := o.fx, res := .ok () }
  | .scaleOp wt replicas, st =>
    let o := scaleStack cfg D event.permit_id wt replicas st
    { st := o.st, fx := o.fx
      res := match o.res with | .ok _ => .ok () | .exn e => .exn e }
  | .provisionOp wt, st =>
    let o := provisionWorkspace cfg D event wt st
    { st := o.st, fx := o.fx, res := .ok () }
  | .setStatusOp s, st =>
    { st := smSetStatus st event.permit_id s
      fx := [.setStatusW event.permit_id s]
      res := .ok () }

/-- Run sub-operations in order; an op's reported failure never aborts the
remainder (only a raised exception does). -/
def runSubOps (cfg : AppConfig) (D : Driver) (event : PermitEvent) :
    List SubOp → StoreState → Out (PyRes Unit)
  | [], st => { st := st, fx := [], res := .ok () }
  | op :: rest, st =>
    let o := runSubOp cfg D event op st
    match o.res with
    | .exn e => { st := o.st, fx := o.fx, res := .exn e }
    | .ok _ =>
      let o2 := runSubOps cfg D event rest o.st
      { st := o2.st, fx := o.fx ++ o2.fx, res := o2.res }

/-- The transition handler is exactly the in-order run of the transition
table's sub-operations: a sub-operation's failure does not abort the
following ones. -/
theorem transition_eq_runSubOps (cfg : AppConfig) (D : Driver) (event : PermitEvent)
    (s : PermitStatus) (st : StoreState) :
    handleStatusTransition cfg D event s st = runSubOps cfg D event (plannedOps s) st := by
  cases s
  case AWAITING_INGRESS => rfl
  case DATA_PREPARATION_PENDING =>
    simp [handleStatusTransition, plannedOps, runSubOps, runSubOp]
  case DATA_PREPARATION_REVIEW_PENDING =>
    simp only [handleStatusTransition, plannedOps, runSubOps, runSubOp]
    cases hres : (scaleStack cfg D event.permit_id .PREPROCESS 0 st).res <;> simp [hres]
  case DATA_PREPARATION_REWORK =>
    simp only [handleStatusTransition, plannedOps, runSubOps, runSubOp]
    cases hres : (scaleStack cfg D event.permit_id .PREPROCESS 1
        (destroyStack cfg D event.permit_id .REVIEW st).st).res <;>
      simp [hres, WorkspaceType.upperValue]
  case WORKSPACE_SETUP_PENDING =>
    simp [handleStatusTransition, plannedOps, runSubOps, runSubOp]
  case WORKSPACE_SETUP_REVIEW_PENDING =>
    simp only [handleStatusTransition, plannedOps, runSubOps, runSubOp]
    cases hres : (scaleStack cfg D event.permit_id .SETUP 0 st).res <;> simp [hres]
  case WORKSPACE_SETUP_REWORK =>
    simp only [handleStatusTransition, plannedOps, runSubOps, runSubOp]
    cases hres : (scaleStack cfg D event.permit_id .SETUP 1
        (destroyStack cfg D event.permit_id .SETUP_REVIEW st).st).res <;>
      simp [hres, WorkspaceType.upperValue]
  case ANALYSIS_ACTIVE =>
    simp [handleStatusTransition, plannedOps, runSubOps, runSubOp]
  case ARCHIVED =>
    simp only [handleStatusTransition, plannedOps, runSubOps, runSubOp]
    cases hres : (scaleStack cfg D event.permit_id .ANALYSIS 0 st).res <;>
      simp [hres, PermitStatus.value]

/-- The status values written for a permit during a trace, in order. -/
def statusWrites (fx : List Effect) (q : String) : List String :=
  fx.filterMap fun e =>
    match e with
    | .setStatusW p s2 => if p == q then some s2 else none
    | _ => none

/-- The last status write wins; with no write the old value stands. -/
def lastWriteOr (ws : List String) (old : Option String) : Option String :=
  match ws.getLast? with
  | some s2 => some s2
  | none => old

/-- Point read after a status write. -/
theorem smGetStatus_smSetStatus (st : StoreState) (pid v q : String) :
    smGetStatus (smSetStatus st pid v) q = if pid == q then some v else smGetStatus st q := by
  by_cases h : pid = q
  · subst h
    simp [smGetStatus, smSetStatus, lookupA_setA_self]
  · have hb : (pid == q) = false := by simpa using h
    simp [smGetStatus, smSetStatus, lookupA_setA_other _ _ _ _ (fun he => h he.symm), hb]

/-- Splitting a trace splits its status writes. -/
theorem statusWrites_append (fx1 fx2 : List Effect) (q : String) :
    statusWrites (fx1 ++ fx2) q = statusWrites fx1 q ++ statusWrites fx2 q :=
  List.filterMap_append fx1 fx2 _

/-- `lastWriteOr` over an appended write list applies the second batch
last. -/
theorem lastWriteOr_append (a b : List String) (old : Option String) :
    lastWriteOr (a ++ b) old = lastWriteOr b (lastWriteOr a old) := by
  unfold lastWriteOr
  rw [List.getLast?_append]
  cases hb : b.getLast? <;> cases ha : a.getLast? <;> simp [Option.or]

/-- An operation satisfies the status discipline: afterwards, every
permit's status is its last written value, else the prior one. -/
def StatusSpec {α : Type} (st : StoreState) (o : Out α) : Prop :=
  ∀ q, smGetStatus o.st q = lastWriteOr (statusWrites o.fx q) (smGetStatus st q)

/-- The failure protocol writes exactly its failure status. -/
theorem statusSpec_handleOperationFailure (st : StoreState) (pid : String)
    (wt : Option WorkspaceType) (action : String) (e : PyErr)
    (status : WorkspaceLifecycleStatus) (plan : Option WorkspacePlan)
    (stack : JVal) (rk : String) (extra : Option (List (String × JVal))) :
    StatusSpec st (handleOperationFailure st pid wt action e status plan stack rk extra) := by
  intro q
  unfold handleOperationFailure
  dsimp only
  rw [smGetStatus_smSetStatus]
  by_cases h : pid = q
  · subst h
    simp [statusWrites, lastWriteOr, auditEffect]
  · have hb : (pid == q) = false := by simpa using h
    simp [statusWrites, lastWriteOr, auditEffect, hb, h]

/-- The apply step obeys the status discipline. -/
theorem statusSpec_applyStack (cfg : AppConfig) (D : Driver) (pid : String)
    (wt : WorkspaceType) (plan : WorkspacePlan) (action : String) (st : StoreState) :
    StatusSpec st (applyStack cfg D pid wt plan action st) := by
  intro q
  unfold applyStack
  split <;> dsimp only
  · next e heq =>
    have h := statusSpec_handleOperationFailure st pid (some wt) action e
      .PROVISIONING_FAILED (some plan) .jNull "permit.workspace.provisioning_failed"
      (some [("stage", .jStr "apply")]) q
    rw [h]
    simp [statusWrites, lastWriteOr, List.filterMap_cons]
  · simp [statusWrites, lastWriteOr]

/-- Recording a successful apply obeys the status discipline: it writes
exactly the stage status. -/
theorem statusSpec_applyAndRecord (cfg : AppConfig) (D : Driver) (pid : String)
    (wt : WorkspaceType) (plan : WorkspacePlan) (action : String) (st : StoreState) :
    StatusSpec st (applyAndRecord cfg D pid wt plan action st) := by
  intro q
  unfold applyAndRecord
  dsimp only
  split
  · split <;>
      (rw [smGetStatus_smSetStatus]
       by_cases h : pid = q
       · subst h
         simp [statusWrites, lastWriteOr, auditEffect, smGetStatus, smSetPlan, smSetConnection]
       · have hb : (pid == q) = false := by simpa using h
         simp [statusWrites, lastWriteOr, auditEffect, hb, h, smGetStatus, smSetPlan,
           smSetConnection])
  · split
    · exact statusSpec_applyStack cfg D pid wt plan action st q
    · next plan2 heq =>
      split <;>
        (rw [smGetStatus_smSetStatus, statusWrites_append, lastWriteOr_append,
           statusWrites_append, lastWriteOr_append,
           ← statusSpec_applyStack cfg D pid wt plan action st q]
         by_cases h : pid = q
         · subst h
           simp [statusWrites, lastWriteOr, auditEffect, smGetStatus, smSetPlan,
             smSetConnection]
         · have hb : (pid == q) = false := by simpa using h
           simp [statusWrites, lastWriteOr, auditEffect, hb, h, smGetStatus, smSetPlan,
             smSetConnection])

/-- Provisioning obeys the status discipline. -/
theorem statusSpec_provisionWorkspace (cfg : AppConfig) (D : Driver)
    (event : PermitEvent) (wt : WorkspaceType) (st : StoreState) :
    StatusSpec st (provisionWorkspace cfg D event wt st) := by
  intro q
  unfold provisionWorkspace
  cases hb : buildPlanFromConfig cfg event wt with
  | error e =>
    exact statusSpec_handleOperationFailure st event.permit_id (some wt)
      "PROVISION_WORKSPACE" e .PROVISIONING_FAILED none .jNull
      "permit.workspace.provisioning_failed" (some [("stage", .jStr "plan_build")]) q
  | ok plan =>
    exact statusSpec_applyAndRecord cfg D event.permit_id wt plan "PROVISION_WORKSPACE" st q

/-- Destroy obeys the status discipline: only a driver failure writes a
status (DESTROY_FAILED). -/
theorem statusSpec_destroyStack (cfg : AppConfig) (D : Driver) (pid : String)
    (wt : WorkspaceType) (st : StoreState) :
    StatusSpec st (destroyStack cfg D pid wt st) := by
  intro q
  unfold destroyStack
  dsimp only
  split
  · split <;> simp [statusWrites, lastWriteOr, auditEffect, smGetStatus, smDeletePlan]
  · split
    · split <;> simp [statusWrites, lastWriteOr, auditEffect, smGetStatus, smDeletePlan]
    · split
      · next e' heq =>
        have h := statusSpec_handleOperationFailure st pid (some wt) "DESTROY_WORKSPACE" e'
          .DESTROY_FAILED none (.jStr (stackNameStr cfg pid wt))
          "permit.workspace.destroy_failed" (some [("stage", .jStr "destroy")]) q
        dsimp only
        rw [h]
        simp [statusWrites, List.filterMap_cons]
      · split <;> simp [statusWrites, lastWriteOr, auditEffect, smGetStatus, smDeletePlan]

/-- Scale obeys the status discipline: only a driver apply failure writes
a status (PROVISIONING_FAILED); a skipped scale writes nothing. -/
theorem statusSpec_scaleStack (cfg : AppConfig) (D : Driver) (pid : String)
    (wt : WorkspaceType) (replicas : Int) (st : StoreState) :
    StatusSpec st (scaleStack cfg D pid wt replicas st) := by
  intro q
  unfold scaleStack
  dsimp only
  split
  · simp [statusWrites, lastWriteOr]
  · split
    · simp [statusWrites, lastWriteOr]
    · split
      · simp [statusWrites, lastWriteOr, auditEffect, smGetStatus, smSetPlan]
      · split
        · exact statusSpec_applyStack cfg D pid wt _ "SCALE_WORKSPACE" st q
        · next plan2 heq =>
          rw [statusWrites_append, lastWriteOr_append,
            ← statusSpec_applyStack cfg D pid wt _ "SCALE_WORKSPACE" st q]
          simp [statusWrites, lastWriteOr, auditEffect, smGetStatus, smSetPlan]

/-- Every sub-operation obeys the status discipline. -/
theorem statusSpec_runSubOp (cfg : AppConfig) (D : Driver) (event : PermitEvent)
    (op : SubOp) (st : StoreState) : StatusSpec st (runSubOp cfg D event op st) := by
  cases op with
  | destroyOp wt => exact fun q => statusSpec_destroyStack cfg D event.permit_id wt st q
  | scaleOp wt replicas =>
    exact fun q => statusSpec_scaleStack cfg D event.permit_id wt replicas st q
  | provisionOp wt => exact fun q => statusSpec_provisionWorkspace cfg D event wt st q
  | setStatusOp s2 =>
    intro q
    dsimp only [runSubOp]
    rw [smGetStatus_smSetStatus]
    by_cases h : event.permit_id = q
    · subst h
      simp [statusWrites, lastWriteOr]
    · have hb : (event.permit_id == q) = false := by simpa using h
      simp [statusWrites, lastWriteOr, hb, h]

/-- A sub-operation run obeys the status discipline. -/
theorem statusSpec_runSubOps (cfg : AppConfig) (D : Driver) (event : PermitEvent)
    (ops : List SubOp) (st : StoreState) : StatusSpec st (runSubOps cfg D event ops st) := by
  induction ops generalizing st with
  | nil => intro q; simp [runSubOps, statusWrites, lastWriteOr]
  | cons op rest ih =>
    intro q
    unfold runSubOps
    dsimp only
    split
    · exact statusSpec_runSubOp cfg D event op st q
    · rw [statusWrites_append, lastWriteOr_append, ← statusSpec_runSubOp cfg D event op st q]
      exact ih _ q

/-- The status values a single sub-operation writes for the event's
permit, stated from the claim's point of view: a failing destroy writes
DESTROY_FAILED, a failing plan build or driver apply writes
PROVISIONING_FAILED, a successful provision writes the stage status, a
skipped scale writes nothing, and the rework/archived transitions append
one explicit write. -/
def opFailStatusWrites (cfg : AppConfig) (D : Driver) (event : PermitEvent) :
    SubOp → StoreState → List String
  | .destroyOp wt, _ =>
    if cfg.disable_pulumi then []
    else if !(D.selectFound (.jStr (stackNameStr cfg event.permit_id wt))) then []
    else
      match D.destroyRes (.jStr (stackNameStr cfg event.permit_id wt)) with
      | some _ => ["DESTROY_FAILED"]
      | none => []
  | .scaleOp wt _, st =>
    match smGetPlan st event.permit_id wt.value with
    | none => []
    | some pd =>
      match planFromDict pd with
      | none => []
      | some _ =>
        if cfg.disable_pulumi then []
        else
          match D.applyRes (.jStr (stackNameStr cfg event.permit_id wt)) with
          | .error _ => ["PROVISIONING_FAILED"]
          | .ok _ => []
  | .provisionOp wt, _ =>
    match buildPlanFromConfig cfg event wt with
    | .error _ => ["PROVISIONING_FAILED"]
    | .ok plan =>
      if cfg.disable_pulumi then [wt.upperValue]
      else
        match D.applyRes plan.stack_name with
        | .error _ => ["PROVISIONING_FAILED"]
        | .ok _ => [wt.upperValue]
  | .setStatusOp s2, _ => [s2]

/-- Status writes of the apply step, for any plan. -/
theorem statusWrites_applyStack (cfg : AppConfig) (D : Driver) (pid : String)
    (wt : WorkspaceType) (P : WorkspacePlan) (action : String) (st : StoreState)
    (q : String) :
    statusWrites (applyStack cfg D pid wt P action st).fx q =
      (match D.applyRes P.stack_name with
       | .error _ => if pid == q then ["PROVISIONING_FAILED"] else []
       | .ok _ => []) := by
  unfold applyStack
  cases hD : D.applyRes P.stack_name <;>
    by_cases h : pid = q <;>
      simp [hD, h, statusWrites, auditEffect, handleOperationFailure,
        WorkspaceLifecycleStatus.value]

set_option maxHeartbeats 1000000 in
/-- Each sub-operation's status writes are exactly the claim-level
characterization. -/
theorem statusWrites_runSubOp_spec (cfg : AppConfig) (D : Driver) (event : PermitEvent)
    (op : SubOp) (st : StoreState) :
    statusWrites (runSubOp cfg D event op st).fx event.permit_id =
      opFailStatusWrites cfg D event op st := by
  cases op with
  | destroyOp wt =>
    dsimp only [runSubOp, opFailStatusWrites]
    unfold destroyStack
    dsimp only
    by_cases hd : cfg.disable_pulumi = true
    · cases hsp : smGetPlan st event.permit_id wt.value <;>
        simp [hd, hsp, statusWrites, auditEffect]
    · simp only [Bool.not_eq_true] at hd
      by_cases hnf : D.selectFound (.jStr (stackNameStr cfg event.permit_id wt)) = true
      · cases hde : D.destroyRes (.jStr (stackNameStr cfg event.permit_id wt)) with
        | some e =>
          simp [hd, hnf, hde, statusWrites, auditEffect, handleOperationFailure,
            WorkspaceLifecycleStatus.value]
        | none =>
          cases hsp : smGetPlan st event.permit_id wt.value <;>
            simp [hd, hnf, hde, hsp, statusWrites, auditEffect]
      · simp only [Bool.not_eq_true] at hnf
        cases hsp : smGetPlan st event.permit_id wt.value <;>
          simp [hd, hnf, hsp, statusWrites, auditEffect]
  | scaleOp wt replicas =>
    dsimp only [runSubOp, opFailStatusWrites]
    unfold scaleStack
    dsimp only
    cases hsp : smGetPlan st event.permit_id wt.value with
    | none => simp [hsp, statusWrites]
    | some pd =>
      cases hpf : planFromDict pd with
      | none => simp [hsp, hpf, statusWrites]
      | some plan0 =>
        by_cases hd : cfg.disable_pulumi = true
        · simp [hsp, hpf, hd, statusWrites, auditEffect]
        · simp only [Bool.not_eq_true] at hd
          simp only [hsp, hpf, hd, Bool.false_eq_true, if_false]
          split
          · rw [statusWrites_applyStack]
            simp only [apply_ite WorkspacePlan.stack_name, ite_self]
            simp [statusWrites]
          · rw [statusWrites_append, statusWrites_applyStack]
            simp only [apply_ite WorkspacePlan.stack_name, ite_self]
            simp [statusWrites, auditEffect]
  | provisionOp wt =>
    dsimp only [runSubOp, opFailStatusWrites]
    unfold provisionWorkspace
    cases hb : buildPlanFromConfig cfg event wt with
    | error e =>
      simp [statusWrites, auditEffect, handleOperationFailure,
        WorkspaceLifecycleStatus.value]
    | ok plan =>
      unfold applyAndRecord
      dsimp only
      by_cases hd : cfg.disable_pulumi = true
      · cases ht : jTruthy plan.connection_info <;>
          simp [hd, ht, statusWrites, auditEffect]
      · simp only [Bool.not_eq_true] at hd
        unfold applyStack
        cases hD : D.applyRes plan.stack_name with
        | error e =>
          simp [hd, hD, statusWrites, auditEffect, handleOperationFailure,
            WorkspaceLifecycleStatus.value]
        | ok outs =>
          cases ht : jTruthy plan.connection_info <;>
            simp [hd, hD, ht, statusWrites, auditEffect]
  | setStatusOp s2 =>
    simp [runSubOp, opFailStatusWrites, statusWrites]

/-- C1: amended. Within a status transition every listed sub-operation is
attempted in order (the handler is exactly the in-order run of the
transition table), and the recorded permit status afterwards is the LAST
status written during the event — failure statuses are written at the
moment of failure, but a later successful provision (or a trailing
explicit write) overwrites them, so the final status is not in general
the most recent failure's status. Each sub-operation's status writes are
characterized exactly: a failing destroy writes DESTROY_FAILED, a
failing build or apply writes PROVISIONING_FAILED, a successful or
pulumi-disabled provision writes the stage status, a scale without a
stored plan writes nothing, and rework/archived transitions append one
explicit write. -/
theorem c1_transition_failure_status_amended (cfg : AppConfig) (D : Driver)
    (event : PermitEvent) (s : PermitStatus) (st : StoreState) :
    handleStatusTransition cfg D event s st = runSubOps cfg D event (plannedOps s) st ∧
    (∀ q, smGetStatus (handleStatusTransition cfg D event s st).st q =
      lastWriteOr (statusWrites (handleStatusTransition cfg D event s st).fx q)
        (smGetStatus st q)) ∧
    (∀ op st2, statusWrites (runSubOp cfg D event op st2).fx event.permit_id =
      opFailStatusWrites cfg D event op st2) := by
  refine ⟨transition_eq_runSubOps cfg D event s st, ?_, ?_⟩
  · intro q
    rw [transition_eq_runSubOps]
    exact statusSpec_runSubOps cfg D event (plannedOps s) st q
  · intro op st2
    exact statusWrites_runSubOp_spec cfg D event op st2

/-- A driver on which every destroy fails but every apply succeeds. -/
def c1Driver : Driver :=
  { selectFound := fun _ => true
    destroyRes := fun _ => some ⟨"destroy failed", "CommandError"⟩
    applyRes := fun _ => .ok [] }

/-- A DATA_PREPARATION_PENDING status event carrying a resolvable user. -/
def c1Event : PermitEvent :=
  { type := .PERMIT_STATUS_UPDATED, permit_id := "p1"
    status := some .DATA_PREPARATION_PENDING
    payload := .jObj [("user", .jObj [("username", .jStr "alice"), ("uid", .jInt 1000)])] }

/-- C1 counterexample: on DATA_PREPARATION_PENDING the ingress destroy
fails (DESTROY_FAILED is written) but the subsequent preprocess provision
succeeds and writes PREPROCESS, so the recorded status after the event is
PREPROCESS, not the most recent failure's DESTROY_FAILED. -/
theorem c1_counterexample :
    smGetStatus (handleStatusTransition cfgTest c1Driver c1Event
      .DATA_PREPARATION_PENDING {}).st "p1" = some "PREPROCESS" ∧
    statusWrites (handleStatusTransition cfgTest c1Driver c1Event
      .DATA_PREPARATION_PENDING {}).fx "p1" = ["DESTROY_FAILED", "PREPROCESS"] ∧
    some "PREPROCESS" ≠ some "DESTROY_FAILED" :=
  ⟨rfl, rfl, by decide⟩
